import Mathlib

/-!
Shallow embedding of the SanityLang interpreter core
(`sanity/runtime.py`, `sanity/runtime_statements.py`, `sanity/variables.py`,
`sanity/sanity_points.py`, `sanity/types.py`) in Lean 4, together with
theorems settling the specification claims about it.

Modelling conventions:
* Python floats are modelled as rationals (`Rat`).  Every numeric value that
  appears in a claim is a small integer, where rational and floating
  arithmetic agree exactly.
* Python's mutable object graph is modelled by explicit state passing: the
  scope chain is a store of `Scope` records indexed by scope ids, and every
  mutation of a `Variable` is an update of the store.
* Calls to the random number generator are modelled by explicit oracle
  streams carried in the state (`rngBools` for threshold tests such as
  `random.random() < 0.2`, where the drawn Bool is the outcome of the test,
  `rngInts` for `random.choice` / `random.randint` style draws, and
  `rngRats` for `random.uniform`).  Short-circuit evaluation in the Python
  sources means a guarded draw is only consumed when its guard holds, which
  the embedding reproduces.
* Python exceptions used by the interpreter (SanityError, BreakSignal,
  ReturnSignal) are modelled by an explicit result type (`XRes`), matching
  the interpreter's own documented design.
-/

namespace Sanity

/-- Variable moods, from `variables.py` (`class Mood`). -/
inductive Mood
  | neutral | happy | sad | angry | afraid | excited | jealous
  deriving DecidableEq, Repr

/-- Variable traits, from `variables.py` (`class Trait`). -/
inductive Trait
  | elder | resilient | tired | lucky | unlucky | paranoid
  | popular | lonely | cursed | blessed | volatile
  deriving DecidableEq, Repr

/-- Runtime values, from `types.py` (`class SanValue` with its `SanType` tag).
Numbers are modelled as rationals. -/
inductive SVal
  | num (q : Rat)
  | word (s : String)
  | yep
  | nope
  | dunno
  | void
  | list (xs : List SVal)
  | blob (kvs : List (String × SVal))
  deriving Repr

namespace SVal

mutual

/-- Structural decidable equality test for values. -/
def beq : SVal → SVal → Bool
  | .num a, .num b => a == b
  | .word a, .word b => a == b
  | .yep, .yep => true
  | .nope, .nope => true
  | .dunno, .dunno => true
  | .void, .void => true
  | .list xs, .list ys => beqList xs ys
  | .blob xs, .blob ys => beqBlob xs ys
  | _, _ => false

/-- Elementwise equality test for value lists. -/
def beqList : List SVal → List SVal → Bool
  | [], [] => true
  | x :: xs, y :: ys => beq x y && beqList xs ys
  | _, _ => false

/-- Elementwise equality test for key/value lists. -/
def beqBlob : List (String × SVal) → List (String × SVal) → Bool
  | [], [] => true
  | (k, x) :: xs, (l, y) :: ys => k == l && beq x y && beqBlob xs ys
  | _, _ => false

end

end SVal

instance : BEq SVal := ⟨SVal.beq⟩

/-- Rendering of a numeric payload as Python renders the underlying int
(claim-relevant numbers are integers; non-integral rationals are rendered
as a fraction, a place where Python would print a float instead). -/
def ratStr (q : Rat) : String :=
  if q.den = 1 then toString q.num
  else toString q.num ++ "/" ++ toString q.den

mutual

/-- Rendering of a value, from `types.py` (`SanValue.__str__`). -/
def svalStr : SVal → String
  | .void => "Void"
  | .yep => "yep"
  | .nope => "nope"
  | .dunno => "dunno"
  | .list xs => "[" ++ String.intercalate ", " (svalStrList xs) ++ "]"
  | .blob kvs => "\x7b" ++ String.intercalate ", " (svalStrBlob kvs) ++ "\x7d"
  | .num q => ratStr q
  | .word s => s

/-- Rendering of the elements of a value list. -/
def svalStrList : List SVal → List String
  | [] => []
  | x :: xs => svalStr x :: svalStrList xs

/-- Rendering of the pairs of a record value. -/
def svalStrBlob : List (String × SVal) → List String
  | [] => []
  | (k, v) :: xs => (k ++ ": " ++ svalStr v) :: svalStrBlob xs

end

/-- Rendering of a raw payload as Python's `str` renders `SanValue.value`
(used by the `&` concatenation in `runtime.py`); booleans print as
`True`/`False` and the two null-like payloads as `None`. -/
def payloadStr : SVal → String
  | .num q => ratStr q
  | .word s => s
  | .yep => "True"
  | .nope => "False"
  | .dunno => "None"
  | .void => "None"
  | .list xs => svalStr (.list xs)
  | .blob kvs => svalStr (.blob kvs)

/-- Equality of raw payloads as Python's `==` compares `SanValue.value`:
`True == 1`, `False == 0`, `None == None`; lists and dicts of `SanValue`
objects compare by object identity in Python (no custom `__eq__`), which a
value-based model renders as never equal. -/
def payloadEq : SVal → SVal → Bool
  | .num a, .num b => a == b
  | .num a, .yep => a == 1
  | .num a, .nope => a == 0
  | .yep, .num b => b == 1
  | .nope, .num b => b == 0
  | .word a, .word b => a == b
  | .yep, .yep => true
  | .nope, .nope => true
  | .dunno, .dunno => true
  | .dunno, .void => true
  | .void, .dunno => true
  | .void, .void => true
  | _, _ => false

mutual

/-- Deep copy, from `types.py` (`SanValue.copy`). -/
def SVal.copy : SVal → SVal
  | .list xs => .list (SVal.copyList xs)
  | .blob kvs => .blob (SVal.copyBlob kvs)
  | .num q => .num q
  | .word s => .word s
  | .yep => .yep
  | .nope => .nope
  | .dunno => .dunno
  | .void => .void

/-- Deep copy of a value list. -/
def SVal.copyList : List SVal → List SVal
  | [] => []
  | x :: xs => x.copy :: SVal.copyList xs

/-- Deep copy of a record's pairs. -/
def SVal.copyBlob : List (String × SVal) → List (String × SVal)
  | [] => []
  | (k, v) :: xs => (k, v.copy) :: SVal.copyBlob xs

end


/-- Truthiness, from `types.py` (`is_truthy`); the `Dunno` case consults the
scope hash, modelled directly on the scope id. -/
def isTruthy (v : SVal) (scopeId : Nat := 0) : Bool :=
  match v with
  | .void => false
  | .nope => false
  | .yep => true
  | .num q => q != 0
  | .word s => s != ""
  | .dunno => scopeId % 2 == 0
  | .list xs => xs.length > 0
  | .blob kvs => kvs.length > 0

/-- Void test, from `types.py` (`is_void`). -/
def isVoid (v : SVal) : Bool := match v with | .void => true | _ => false

/-! Numeric parsing of word payloads, used by type coercion.  Python's
`float(...)` on a string accepts signed decimal notation; the embedding
parses exactly the sign/digits/fraction shape (claims never coerce a word
to a number, so only this common shape matters). -/

/-- Parsing of a digit run into (value, number of digits consumed). -/
def parseDigits : List Char → Option (Nat × Nat)
  | [] => none
  | cs =>
    let digs := cs.takeWhile fun c => c.isDigit
    if digs.isEmpty then none
    else some (digs.foldl (fun acc c => acc * 10 + (c.toNat - 48)) 0, digs.length)

/-- Parsing of a decimal string into a rational, `none` when Python's
`float(...)` would raise `ValueError`. -/
def parseRat (s : String) : Option Rat :=
  let cs := s.data
  let (neg, cs) :=
    match cs with
    | '-' :: rest => (true, rest)
    | '+' :: rest => (false, rest)
    | _ => (false, cs)
  match parseDigits cs with
  | none => none
  | some (ipart, n) =>
    let rest := cs.drop n
    let core : Option Rat :=
      match rest with
      | [] => some ((ipart : Rat))
      | '.' :: frac =>
        match parseDigits frac with
        | none => none
        | some (fpart, m) =>
          if frac.drop m = [] then
            some ((ipart : Rat) + (fpart : Rat) / ((10 : Rat) ^ m))
          else none
      | _ => none
    match core with
    | none => none
    | some q => some (if neg then -q else q)

/-- Type coercion for binary operations, from `types.py` (`coerce`).
Returns the coerced operands and whether each side actually changed type. -/
def coerce (left right : SVal) (op : String) : SVal × SVal × Bool × Bool :=
  -- Rule 1 and 2: Void / Dunno propagate uncoerced
  match left, right with
  | .void, _ => (left, right, false, false)
  | _, .void => (left, right, false, false)
  | .dunno, _ => (left, right, false, false)
  | _, .dunno => (left, right, false, false)
  | _, _ =>
    -- Rule 3 and 4: Yep/Nope coerce against a number or a word
    let boolNum (v : SVal) : Rat := match v with | .yep => 1 | _ => 0
    let boolWord (v : SVal) : String := match v with | .yep => "yep" | _ => "nope"
    let isBool (v : SVal) : Bool := match v with | .yep => true | .nope => true | _ => false
    let (left, lCo) :=
      if isBool left then
        match right with
        | .num _ => ((.num (boolNum left) : SVal), true)
        | .word _ => ((.word (boolWord left) : SVal), true)
        | _ => (left, false)
      else (left, false)
    let (right, rCo) :=
      if isBool right then
        match left with
        | .num _ => ((.num (boolNum right) : SVal), true)
        | .word _ => ((.word (boolWord right) : SVal), true)
        | _ => (right, false)
      else (right, false)
    -- Rule 5: Number/Word, operator dependent
    let (left, right, lCo, rCo) :=
      match left, right with
      | .num a, .word b =>
        if op = "&" then ((.word (ratStr a) : SVal), (.word b : SVal), true, rCo)
        else
          match parseRat b with
          | some q => ((.num a : SVal), (.num q : SVal), lCo, true)
          | none => ((.num a : SVal), (.num 0 : SVal), lCo, true)
      | .word a, .num b =>
        if op = "&" then ((.word a : SVal), (.word (ratStr b) : SVal), lCo, true)
        else
          match parseRat a with
          | some q => ((.num q : SVal), (.num b : SVal), true, rCo)
          | none => ((.num 0 : SVal), (.num b : SVal), true, rCo)
      | _, _ => (left, right, lCo, rCo)
    -- Rule 6: List coercion
    match left, right with
    | .list xs, .num b => ((.num xs.length : SVal), (.num b : SVal), true, rCo)
    | .list xs, .word b => ((.word (svalStr (.list xs)) : SVal), (.word b : SVal), true, rCo)
    | .num a, .list ys => ((.num a : SVal), (.num ys.length : SVal), lCo, true)
    | .word a, .list ys => ((.word a : SVal), (.word (svalStr (.list ys)) : SVal), lCo, true)
    | _, _ => (left, right, lCo, rCo)

/-- Levenshtein distance, from `types.py` (`levenshtein_distance`). -/
def levenshtein (s1 s2 : String) : Nat :=
  let a := s1.data
  let b := s2.data
  let firstRow : List Nat := (List.range (b.length + 1))
  let step (prevRow : List Nat) (pair : Nat × Char) : List Nat :=
    let (i, c1) := pair
    let start := [i + 1]
    let folded := b.foldl
      (fun (acc : List Nat × Nat) c2 =>
        let (currRow, j) := acc
        let ins := (prevRow.getD (j + 1) 0) + 1
        let del := (currRow.getD 0 0) + 1
        let sub := (prevRow.getD j 0) + (if c1 = c2 then 0 else 1)
        (min ins (min del sub) :: currRow, j + 1))
      (start.reverse, 0)
    folded.1.reverse
  let rows := a.enum.foldl step firstRow
  rows.getD (rows.length - 1) 0

/-- Approximate equality, from `types.py` (`vibes_equal`): numbers equal
within 20 percent of the larger magnitude, words within Levenshtein
distance 3. -/
def vibesEqual (left right : SVal) : Bool :=
  match left, right with
  | .num a, .num b =>
    if a == 0 && b == 0 then true
    else if a == 0 || b == 0 then |a - b| ≤ (2 : Rat) / 10
    else |a - b| / max |a| |b| ≤ (2 : Rat) / 10
  | .word a, .word b => levenshtein a b ≤ 3
  | l, r =>
    if (match l, r with
        | .yep, .yep => true | .nope, .nope => true | .dunno, .dunno => true
        | .void, .void => true | .list _, .list _ => true | .blob _, .blob _ => true
        | _, _ => false)
    then payloadEq l r else false

/-- Loose equality, from `types.py` (`loose_equal`): payload equality after
coercion. -/
def looseEqual (left right : SVal) : Bool :=
  let sameType : Bool :=
    match left, right with
    | .num _, .num _ => true | .word _, .word _ => true
    | .yep, .yep => true | .nope, .nope => true
    | .dunno, .dunno => true | .void, .void => true
    | .list _, .list _ => true | .blob _, .blob _ => true
    | _, _ => false
  if sameType then payloadEq left right
  else
    let (l, r, _, _) := coerce left right "=="
    payloadEq l r

/-- Strict equality, from `types.py` (`strict_equal`): same tag and payload. -/
def strictEqual (left right : SVal) : Bool :=
  let sameType : Bool :=
    match left, right with
    | .num _, .num _ => true | .word _, .word _ => true
    | .yep, .yep => true | .nope, .nope => true
    | .dunno, .dunno => true | .void, .void => true
    | .list _, .list _ => true | .blob _, .blob _ => true
    | _, _ => false
  sameType && payloadEq left right

/-! Variable state, from `variables.py`. -/

/-- A SanityLang variable with its hidden state, from `variables.py`
(`@dataclass class Variable`). -/
structure Variable where
  name : String
  value : SVal
  keyword : String
  declLine : Nat := 0
  trust : Int := 100
  doubt : Nat := 0
  age : Nat := 0
  scars : Nat := 0
  mood : Mood := .neutral
  moodSetAt : Nat := 0
  traits : List Trait := []
  observed : Bool := false
  lastAccessed : Nat := 0
  bonds : List String := []
  pinkySource : Option String := none
  whateverCounter : Nat := 0
  accessCount : Nat := 0
  errorCount : Nat := 0
  betLosses : Nat := 0
  history : List SVal := []
  griefRemaining : Nat := 0
  isPretend : Bool := false
  isUncertain : Bool := false
  previousValue : Option SVal := none
  deriving Repr

namespace Variable

/-- Trait membership test, from `Variable.has_trait`. -/
def hasTrait (v : Variable) (t : Trait) : Bool := v.traits.contains t

/-- Set-style trait insertion (Python `set.add`). -/
def addTrait (v : Variable) (t : Trait) : Variable :=
  if v.traits.contains t then v else { v with traits := v.traits ++ [t] }

/-- Set-style trait removal (Python `set.discard`). -/
def discardTrait (v : Variable) (t : Trait) : Variable :=
  { v with traits := v.traits.filter fun u => u ≠ t }

/-- Scar addition, from `Variable.add_scar`: three or more scars grant
Resilient. -/
def addScar (v : Variable) : Variable :=
  let v := { v with scars := v.scars + 1 }
  if v.scars ≥ 3 && !v.traits.contains .resilient then v.addTrait .resilient
  else v

/-- Trust loss, from `Variable.lose_trust`: clamps at 0, below 50 turns the
mood Angry, below 30 grants Paranoid. -/
def loseTrust (v : Variable) (amount : Int := 10) : Variable :=
  let v := { v with trust := max 0 (v.trust - amount) }
  let v := if v.trust < 50 && v.mood ≠ .angry then { v with mood := .angry } else v
  if v.trust < 30 then v.addTrait .paranoid else v

/-- Read-access bookkeeping, from `Variable.record_access`: bumps the access
counter, refreshes age, the 7th access sets the mood Happy, 200 accesses
grant Tired, age beyond 500 grants Elder. -/
def recordAccess (v : Variable) (stmtCounter : Nat) : Variable :=
  let v := { v with
    accessCount := v.accessCount + 1
    lastAccessed := stmtCounter
    age := stmtCounter }
  let v := if v.accessCount = 7 then { v with mood := .happy, moodSetAt := stmtCounter } else v
  let v := if v.accessCount ≥ 200 && !v.traits.contains .tired then v.addTrait .tired else v
  if v.age > 500 && !v.traits.contains .elder then v.addTrait .elder else v

/-- Mood decay, from `Variable.check_mood_decay`: non-neutral moods decay to
Neutral after 200 statements, Angry only once trust is at least 50. -/
def checkMoodDecay (v : Variable) (stmtCounter : Nat) : Variable :=
  if v.mood = .neutral then v
  else if v.mood = .angry then
    if v.trust ≥ 50 && stmtCounter - v.moodSetAt ≥ 200 then { v with mood := .neutral } else v
  else if stmtCounter - v.moodSetAt ≥ 200 then { v with mood := .neutral } else v

/-- Neglect check, from `Variable.check_sad_from_neglect`: 100+ statements
without access while Neutral turn the mood Sad. -/
def checkSadFromNeglect (v : Variable) (stmtCounter : Nat) : Variable :=
  if stmtCounter - v.lastAccessed ≥ 100 && v.mood = .neutral then
    { v with mood := .sad, moodSetAt := stmtCounter }
  else v

/-- Mood modifier on numeric results, from `Variable.apply_mood_to_number`. -/
def applyMoodToNumber (v : Variable) (result : Rat) : Rat :=
  if v.traits.contains .elder then result
  else if v.mood = .happy then result + 1
  else if v.mood = .sad then result - 1
  else if v.traits.contains .tired then result - 1
  else result

/-- Mood modifier on word results, from `Variable.apply_mood_to_word`. -/
def applyMoodToWord (v : Variable) (result : String) : String :=
  if v.traits.contains .elder then result
  else if v.mood = .happy then result ++ "!"
  else if v.mood = .sad && result.length > 0 then result.dropRight 1
  else if v.traits.contains .tired && result.length > 0 then result.dropRight 1
  else result

/-- Self-mutation check, from `Variable.check_whatever_mutation`: invoked by
the periodic sweep; counts its own invocations in `whateverCounter` and on
the 50th mutates the value (numbers drift by a tenth of themselves with the
sign drawn from the oracle, words get one character replaced).  The access
counter plays no role. -/
def checkWhateverMutation (v : Variable) (rng : List Int) :
    Variable × List Int :=
  if v.keyword ≠ "whatever" then (v, rng)
  else if v.traits.contains .elder then (v, rng)
  else
    let v := { v with whateverCounter := v.whateverCounter + 1 }
    if v.whateverCounter ≥ 50 then
      let v := { v with whateverCounter := 0 }
      match v.value with
      | .num q =>
        let draw := rng.headD 0
        let sign : Rat := if draw % 2 = 0 then -1 else 1
        ({ v with value := .num (q + q * (1 : Rat) / 10 * sign) }, rng.drop 1)
      | .word s =>
        if s.length > 0 then
          let i := (rng.headD 0).toNat % s.length
          let c := Char.ofNat (97 + (rng.getD 1 0).toNat % 26)
          let chars := s.data
          ({ v with value := .word ⟨chars.take i ++ [c] ++ chars.drop (i + 1)⟩ }, rng.drop 2)
        else (v, rng)
      | _ => (v, rng)
    else (v, rng)

end Variable

/-! Sanity Points, from `sanity_points.py`. -/

/-- The SP tracker, from `sanity_points.py` (`class SanityTracker`).  The
`spv` field is the private `_sp`; the listener list is omitted because the
interpreter never registers a listener. -/
structure SanityTracker where
  spv : Int := 100
  strict : Bool := false
  lenient : Bool := false
  prayMercy : Bool := false
  audit : Bool := false
  isRuntime : Bool := false
  lastThreshold : Int := 100
  auditLog : List (String × Int × Int) := []
  auditContext : String := ""
  deriving Repr

namespace SanityTracker

/-- Threshold bookkeeping, from `SanityTracker._check_thresholds` (there are
never any registered listeners, so only `_last_threshold` changes). -/
def checkThresholds (t : SanityTracker) (oldSp : Int) : SanityTracker :=
  let oldT := oldSp.fdiv 10 * 10
  let newT := t.spv.fdiv 10 * 10
  if oldT ≠ newT then { t with lastThreshold := newT } else t

/-- The `sp` property setter, from `sanity_points.py`: stores the value,
clamps at 10 under lenient mode, records an audit entry, and checks
thresholds. -/
def setSp (t : SanityTracker) (value : Int) : SanityTracker :=
  let old := t.spv
  let t := { t with spv := value }
  let t := if t.lenient && t.spv < 10 then { t with spv := 10 } else t
  let t :=
    if t.audit && t.spv ≠ old then
      let delta := t.spv - old
      let reason := if t.auditContext = "" then "direct SP change" else t.auditContext
      { t with auditLog := t.auditLog ++ [(reason, delta, t.spv)], auditContext := "" }
    else t
  t.checkThresholds old

/-- Global penalty modifiers, from `SanityTracker._modifier`: strict doubles
penalties, mercy then halves them with floor division. -/
def modifier (t : SanityTracker) (amount : Int) : Int :=
  if amount < 0 then
    let amount := if t.strict then amount * 2 else amount
    if t.prayMercy then amount.fdiv 2 else amount
  else amount

/-- Insanity mode predicate, from the `insanity_mode` property: SP at most 0. -/
def insanityMode (t : SanityTracker) : Bool := t.spv ≤ 0

/-- Audit context setter, from `SanityTracker._audit`. -/
def auditCtx (t : SanityTracker) (reason : String) : SanityTracker :=
  { t with auditContext := reason }

/-- Addition through the property setter (`self.sp += delta`). -/
def addSp (t : SanityTracker) (delta : Int) : SanityTracker :=
  t.setSp (t.spv + delta)

/-- Named op: declaring a single-character variable name, -5 SP. -/
def singleCharName (t : SanityTracker) : SanityTracker :=
  let t := t.auditCtx "single-char variable name"
  t.addSp (t.modifier (-5))

/-- Named op: declaring a name longer than 20 characters, -2 SP. -/
def longName (t : SanityTracker) : SanityTracker :=
  let t := t.auditCtx "verbose variable name (>20 chars)"
  t.addSp (t.modifier (-2))

/-- Named op: overriding a sure variable, -10 SP. -/
def overrideSure (t : SanityTracker) : SanityTracker :=
  let t := t.auditCtx "overriding 'sure' variable"
  t.addSp (t.modifier (-10))

/-- Named op: a whatever declaration, -3 SP (doubled at runtime). -/
def whateverDeclaration (t : SanityTracker) : SanityTracker :=
  let cost : Int := if t.isRuntime then -6 else -3
  let t := t.auditCtx "'whatever' declaration"
  t.addSp (t.modifier cost)

/-- Named op: a curse declaration, -20 SP (doubled at runtime). -/
def curseDeclaration (t : SanityTracker) : SanityTracker :=
  let cost : Int := if t.isRuntime then -40 else -20
  let t := t.auditCtx "curse declaration"
  t.addSp (t.modifier cost)

/-- Named op: first call of a function, +1 SP. -/
def firstFunctionCall (t : SanityTracker) : SanityTracker :=
  let t := t.auditCtx "first function call"
  t.addSp 1

/-- Named op: calling a function at 10 or more calls, -1 SP. -/
def repetitionPenalty (t : SanityTracker) : SanityTracker :=
  let t := t.auditCtx "function repetition (10+ calls)"
  t.addSp (t.modifier (-1))

/-- Named op: a cope block that ignores the error, -5 SP. -/
def uselessCope (t : SanityTracker) : SanityTracker :=
  let t := t.auditCtx "useless cope block"
  t.addSp (t.modifier (-5))

/-- Named op: a pinky bond breaking, -15 SP. -/
def pinkyBreak (t : SanityTracker) : SanityTracker :=
  let t := t.auditCtx "pinky bond broken"
  t.addSp (t.modifier (-15))

/-- Named op: using séance, -5 SP. -/
def seanceUse (t : SanityTracker) : SanityTracker :=
  let t := t.auditCtx "séance invocation"
  t.addSp (t.modifier (-5))

/-- Named op: entering a scope, +1 SP. -/
def enterScope (t : SanityTracker) : SanityTracker :=
  let t := t.auditCtx "entered scope"
  t.addSp 1

/-- Named op: leaving a scope whose variables were never used, -4 SP. -/
def wastedScope (t : SanityTracker) : SanityTracker :=
  let t := t.auditCtx "wasted scope (no vars used)"
  t.addSp (t.modifier (-4))

/-- Named op: an emotional bond forming, +2 SP. -/
def bondFormed (t : SanityTracker) : SanityTracker :=
  let t := t.auditCtx "emotional bond formed"
  t.addSp 2

/-- Named op: an emotional bond breaking, -7 SP. -/
def bondBroken (t : SanityTracker) : SanityTracker :=
  let t := t.auditCtx "emotional bond broken"
  t.addSp (t.modifier (-7))

/-- Named op: checking Void for truthiness, -1 SP. -/
def voidTruthinessCheck (t : SanityTracker) : SanityTracker :=
  let t := t.auditCtx "void truthiness check"
  t.addSp (t.modifier (-1))

/-- Named op: ambiguous whitespace precedence, -2 SP. -/
def ambiguousPrecedence (t : SanityTracker) : SanityTracker :=
  let t := t.auditCtx "ambiguous whitespace precedence"
  t.addSp (t.modifier (-2))

/-- Named op: an oops warning, -2 SP. -/
def oopsPenalty (t : SanityTracker) : SanityTracker :=
  let t := t.auditCtx "oops warning"
  t.addSp (t.modifier (-2))

/-- Named op: yolo swallowing an error, -5 SP. -/
def yoloSwallow (t : SanityTracker) : SanityTracker :=
  let t := t.auditCtx "yolo error swallow"
  t.addSp (t.modifier (-5))

/-- Named op: the ghost haunting tax, -1 per ghost per 100 statements. -/
def ghostTax (t : SanityTracker) (ghostCount : Int) : SanityTracker :=
  let t := t.auditCtx "ghost tax"
  t.addSp (t.modifier (-ghostCount))

/-- Named op: a should function never called, -5 SP. -/
def shouldNotCalled (t : SanityTracker) : SanityTracker :=
  let t := t.auditCtx "'should' function never called"
  t.addSp (t.modifier (-5))

/-- Named op: an unfulfilled foreshadow at program end, -5 SP. -/
def unfulfilledForeshadow (t : SanityTracker) : SanityTracker :=
  let t := t.auditCtx "unfulfilled foreshadow"
  t.addSp (t.modifier (-5))

/-- Named op `i_am_okay`, from `sanity_points.py`: writes 50 into the
backing field directly, bypassing the property setter. -/
def iAmOkay (t : SanityTracker) : SanityTracker :=
  let t := t.auditCtx "i am okay (SP reset)"
  { t with spv := 50 }

/-- Named op `reset`, from `sanity_points.py`: writes the given value into
the backing field directly, bypassing the property setter. -/
def reset (t : SanityTracker) (value : Int := 100) : SanityTracker :=
  let t := t.auditCtx ("SP reset to " ++ toString value)
  { t with spv := value }

/-- Named op `pray_for_chaos`, from `sanity_points.py`: writes 0 into the
backing field directly, bypassing the property setter (and hence the
lenient clamp). -/
def prayForChaos (t : SanityTracker) : SanityTracker :=
  let t := t.auditCtx "pray for chaos (insanity mode)"
  { t with spv := 0 }

/-- Named op `pray_for_nothing`: +1 SP. -/
def prayForNothing (t : SanityTracker) : SanityTracker :=
  let t := t.auditCtx "pray for nothing"
  t.addSp 1

end SanityTracker

/-! Abstract syntax, from `ast_nodes.py`, restricted to the constructs the
claims exercise.  Every statement carries its resolved terminator list and
source line, as produced by the parser. -/

/-- Expressions, from `ast_nodes.py`.  A `call` is a `FunctionCall` whose
callee is a `VariableAccess` (the only callee shape the embedded programs
use); `emotional` keeps its operands as expressions exactly as the source
does, extracting names at evaluation time. -/
inductive Expr
  | numLit (q : Rat)
  | strLit (s : String)
  | boolLit (b : String)
  | voidLit
  | varAccess (name : String)
  | binary (left : Expr) (op : String) (right : Expr) (leftSpaces rightSpaces : Nat)
  | comparison (left : Expr) (op : String) (right : Expr) (equalCount : Nat)
  | emotional (left : Expr) (op : String) (right : Expr)
  | call (callee : String) (args : List Expr)
  | seance (name : String)
  deriving Repr

/-- Statements, from `ast_nodes.py`; each constructor starts with its
terminator list and source line (the `terminators` and `line` fields of the
Python `Statement` base class). -/
inductive Stmt
  | varDecl (terms : List String) (line : Nat) (keyword name : String) (value : Option Expr)
  | assign (terms : List String) (line : Nat) (name : String) (value : Expr)
  | printS (terms : List String) (line : Nat) (e : Expr)
  | exprStmt (terms : List String) (line : Nat) (e : Expr)
  | ifStmt (terms : List String) (line : Nat) (cond : Expr) (body : List Stmt)
      (buts : List (Expr × List Stmt)) (actuallyBlk : Option (List Stmt))
  | plsLoop (terms : List String) (line : Nat) (count : Expr)
      (counterName : Option String) (body : List Stmt)
  | enough (terms : List String) (line : Nat)
  | funcDecl (terms : List String) (line : Nat) (keyword fname : String)
      (params : List String) (body : List Stmt) (cond : Option Expr)
  | retS (terms : List String) (line : Nat) (value : Option Expr)
  | tryCope (terms : List String) (line : Nat) (tryBlk : List Stmt)
      (copeParam : Option String) (copeBlk : Option (List Stmt))
      (denyBlk : Option (List Stmt))
  | yolo (terms : List String) (line : Nat) (body : List Stmt)
  | cry (terms : List String) (line : Nat) (message : String)
  | deleteS (terms : List String) (line : Nat) (name : String)
  deriving Repr

namespace Stmt

/-- Terminator list of a statement. -/
def terms : Stmt → List String
  | .varDecl t _ _ _ _ => t
  | .assign t _ _ _ => t
  | .printS t _ _ => t
  | .exprStmt t _ _ => t
  | .ifStmt t _ _ _ _ _ => t
  | .plsLoop t _ _ _ _ => t
  | .enough t _ => t
  | .funcDecl t _ _ _ _ _ _ => t
  | .retS t _ _ => t
  | .tryCope t _ _ _ _ _ => t
  | .yolo t _ _ => t
  | .cry t _ _ => t
  | .deleteS t _ _ => t

/-- Source line of a statement. -/
def line : Stmt → Nat
  | .varDecl _ l _ _ _ => l
  | .assign _ l _ _ => l
  | .printS _ l _ => l
  | .exprStmt _ l _ => l
  | .ifStmt _ l _ _ _ _ => l
  | .plsLoop _ l _ _ _ => l
  | .enough _ l => l
  | .funcDecl _ l _ _ _ _ _ => l
  | .retS _ l _ => l
  | .tryCope _ l _ _ _ _ => l
  | .yolo _ l _ => l
  | .cry _ l _ => l
  | .deleteS _ l _ => l

end Stmt

/-- A declared function as stored in `Interpreter.functions`: the
`FunctionDecl` node together with the scope id of its defining environment. -/
structure FuncData where
  keyword : String
  fname : String
  params : List String
  body : List Stmt
  cond : Option Expr := none
  line : Nat := 0
  deriving Repr

/-- A program, from `ast_nodes.py` (`class Program`), restricted to the
narrative pieces the claims exercise (no chapters). -/
structure Program where
  body : List Stmt := []
  prologue : Option (List Stmt) := none
  climax : Option (List Stmt) := none
  epilogue : Option (List Stmt) := none
  deriving Repr

/-! Association-list helpers for Python dicts (insertion ordered, value
replacement keeps the original position) and sets (insertion ordered). -/

/-- Dict lookup. -/
def alookup {α : Type} : List (String × α) → String → Option α
  | [], _ => none
  | (k, v) :: rest, key => if k = key then some v else alookup rest key

/-- Dict store: replaces in place, appends new keys. -/
def aset {α : Type} : List (String × α) → String → α → List (String × α)
  | [], key, v => [(key, v)]
  | (k, w) :: rest, key, v =>
    if k = key then (k, v) :: rest else (k, w) :: aset rest key v

/-- Dict update of an existing entry. -/
def aupdate {α : Type} : List (String × α) → String → (α → α) → List (String × α)
  | [], _, _ => []
  | (k, w) :: rest, key, f =>
    if k = key then (k, f w) :: aupdate rest key f
    else (k, w) :: aupdate rest key f

/-- Dict removal (`dict.pop(key, None)`). -/
def aremove {α : Type} (m : List (String × α)) (key : String) : List (String × α) :=
  m.filter fun kv => kv.1 ≠ key

/-- Set insertion (`set.add`). -/
def sadd (s : List String) (x : String) : List String :=
  if s.contains x then s else s ++ [x]

/-- Set removal (`set.discard`). -/
def sdiscard (s : List String) (x : String) : List String :=
  s.filter fun y => y ≠ x

/-- Set union preserving first-seen order. -/
def sunion (a b : List String) : List String := b.foldl sadd a

/-! Scopes and interpreter state. -/

/-- In-place replacement of a slot in the scope store. -/
def replaceScope {σ : Type} : List (Nat × σ) → Nat → σ → List (Nat × σ)
  | [], _, _ => []
  | (i, old) :: rest, sid, sc =>
    if i = sid then (i, sc) :: replaceScope rest sid sc
    else (i, old) :: replaceScope rest sid sc

/-- One environment frame, from `variables.py` (`class Environment`); the
parent link is a scope id into the state's scope store. -/
structure Scope where
  parent : Option Nat := none
  scopeId : Nat := 0
  vars : List (String × Variable) := []
  usedVars : List String := []
  declOrder : List (String × Nat) := []
  deriving Repr

/-- The six directed relation stores of `Interpreter.relationships`. -/
structure Rel where
  hates : List (String × List String) := []
  fears : List (String × List String) := []
  envies : List (String × List String) := []
  ignores : List (String × List String) := []
  mirrors : List (String × List String) := []
  haunts : List (String × List String) := []
  deriving Repr

/-- The interpreter state: the fields of `Interpreter.__init__` that the
embedded constructs touch, with the scope chain as an explicit store. -/
structure St where
  scopes : List (Nat × Scope) := [(0, {})]
  currentEnv : Nat := 0
  scopeCounter : Nat := 0
  sp : SanityTracker := {}
  stmtCounter : Nat := 0
  afterlife : List (String × List (SVal × Mood × Nat × Nat)) := []
  ghostCount : Int := 0
  callCounts : List (String × Nat) := []
  functions : List (String × (FuncData × Nat)) := []
  memoCaches : List (String × List (List String × SVal)) := []
  oopsCount : Nat := 0
  banned : List String := []
  prayers : List String := []
  output : List String := []
  graphEdges : List (String × List String) := []
  rel : Rel := {}
  mirrorPending : List (String × SVal) := []
  ughQuitProb : Rat := 0
  cachedReturns : List (String × SVal) := []
  firstCallResults : List String := []
  insanitySwapCounter : Nat := 0
  blameLog : List String := []
  stmtHistory : List Stmt := []
  listeners : List (String × List (List Stmt × Nat)) := []
  foreshadowed : List (String × Bool) := []
  dreamPath : Option String := none
  rngBools : List Bool := []
  rngInts : List Int := []
  rngRats : List Rat := []
  deriving Repr

namespace St

/-- Oracle draw for a `random.random() < p` test; the drawn Bool is the
outcome of the test. -/
def drawBool (s : St) : Bool × St :=
  (s.rngBools.headD false, { s with rngBools := s.rngBools.drop 1 })

/-- Oracle draw for a `random.choice` / `random.randint` style call. -/
def drawInt (s : St) : Int × St :=
  (s.rngInts.headD 0, { s with rngInts := s.rngInts.drop 1 })

/-- Oracle draw for a `random.uniform` call. -/
def drawRat (s : St) : Rat × St :=
  (s.rngRats.headD 0, { s with rngRats := s.rngRats.drop 1 })

/-- Scope store read. -/
def getScope (s : St) (sid : Nat) : Option Scope :=
  (s.scopes.find? fun p => p.1 = sid).map Prod.snd

/-- Scope store write. -/
def setScope (s : St) (sid : Nat) (sc : Scope) : St :=
  { s with scopes := replaceScope s.scopes sid sc }

/-- Resolution of a name along the parent chain starting at `sid`, returning
the owning scope id and the variable; `fuel` bounds the chain walk. -/
def resolveFrom (s : St) : Nat → Nat → String → Option (Nat × Variable)
  | 0, _, _ => none
  | fuel + 1, sid, name =>
    match s.getScope sid with
    | none => none
    | some sc =>
      match alookup sc.vars name with
      | some v => some (sid, v)
      | none =>
        match sc.parent with
        | some p => s.resolveFrom fuel p name
        | none => none

/-- Resolution from the current environment (`Environment.get` without the
used-variable marking). -/
def resolve (s : St) (name : String) : Option (Nat × Variable) :=
  s.resolveFrom (s.scopes.length + 1) s.currentEnv name

/-- The used-variable marking performed by `Environment.get` in the scope
where the name was found. -/
def markUsed (s : St) (name : String) : St :=
  match s.resolve name with
  | none => s
  | some (sid, _) =>
    match s.getScope sid with
    | none => s
    | some sc => s.setScope sid { sc with usedVars := sadd sc.usedVars name }

/-- `Environment.get`: resolution plus used-variable marking. -/
def envGet (s : St) (name : String) : St × Option (Nat × Variable) :=
  match s.resolve name with
  | none => (s, none)
  | some r => (s.markUsed name, some r)

/-- In-place update of the variable bound to `name` as resolved from the
current environment (mutation through the Python object reference). -/
def updateVar (s : St) (name : String) (f : Variable → Variable) : St :=
  match s.resolve name with
  | none => s
  | some (sid, _) =>
    match s.getScope sid with
    | none => s
    | some sc => s.setScope sid { sc with vars := aupdate sc.vars name f }

/-- `Environment.define`: binds in the current scope and records declaration
order. -/
def define (s : St) (name : String) (v : Variable) : St :=
  match s.getScope s.currentEnv with
  | none => s
  | some sc =>
    s.setScope s.currentEnv
      { sc with vars := aset sc.vars name v
                declOrder := sc.declOrder ++ [(name, v.declLine)] }

/-- `Environment.has_local`: membership in the current scope only. -/
def hasLocal (s : St) (name : String) : Bool :=
  match s.getScope s.currentEnv with
  | none => false
  | some sc => (alookup sc.vars name).isSome

/-- `Environment.all_variables` as a resolution map name to owning scope id:
parent entries first, current-scope entries replacing in place or appended
(Python dict update semantics). -/
def allVarsFrom (s : St) : Nat → Nat → List (String × Nat)
  | 0, _ => []
  | fuel + 1, sid =>
    match s.getScope sid with
    | none => []
    | some sc =>
      let base := match sc.parent with
        | some p => s.allVarsFrom fuel p
        | none => []
      sc.vars.foldl (fun acc kv => aset acc kv.1 sid) base

/-- Resolution map of all variables reachable from the current environment. -/
def allVars (s : St) : List (String × Nat) :=
  s.allVarsFrom (s.scopes.length + 1) s.currentEnv

/-- Read of a variable record by owning scope id. -/
def varAt (s : St) (sid : Nat) (name : String) : Option Variable :=
  match s.getScope sid with
  | none => none
  | some sc => alookup sc.vars name

/-- Write of a variable record by owning scope id. -/
def setVarAt (s : St) (sid : Nat) (name : String) (f : Variable → Variable) : St :=
  match s.getScope sid with
  | none => s
  | some sc => s.setScope sid { sc with vars := aupdate sc.vars name f }

/-- Current stored value of a name as resolved from the current
environment (observation helper for the theorems). -/
def valueOf (s : St) (name : String) : Option SVal :=
  (s.resolve name).map fun r => r.2.value

/-- Fresh scope id, from `Interpreter._new_scope_id`. -/
def newScopeId (s : St) : Nat × St :=
  (s.scopeCounter + 1, { s with scopeCounter := s.scopeCounter + 1 })

/-- Scope creation: allocates a fresh id and installs an empty scope with
the given parent, leaving the current environment untouched. -/
def pushScope (s : St) (parent : Nat) : Nat × St :=
  let (sid, s) := s.newScopeId
  (sid, { s with scopes := s.scopes ++ [(sid, { parent := some parent, scopeId := sid })] })

/-- `Interpreter._add_graph_edge`. -/
def addGraphEdge (s : St) (a b : String) : St :=
  let g := aset s.graphEdges a (sadd ((alookup s.graphEdges a).getD []) b)
  let g := aset g b (sadd ((alookup g b).getD []) a)
  { s with graphEdges := g }

/-- `Interpreter._remove_graph_edge`. -/
def removeGraphEdge (s : St) (a b : String) : St :=
  let g := aupdate s.graphEdges a (fun es => sdiscard es b)
  let g := aupdate g b (fun es => sdiscard es a)
  { s with graphEdges := g }

/-- `Interpreter._send_to_afterlife`. -/
def sendToAfterlife (s : St) (name : String) (value : SVal) (mood : Mood)
    (scars : Nat) : St :=
  let entries := ((alookup s.afterlife name).getD []) ++ [(value, mood, scars, 0)]
  { s with afterlife := aset s.afterlife name entries }

/-- `Interpreter._write_blame`: the embedding records blame lines in the
state instead of a sidecar file. -/
def writeBlame (s : St) (message : String) : St :=
  { s with blameLog := s.blameLog ++ [message] }

/-- Shadow lookup, from `Interpreter._find_shadow_var`: the first scope
strictly above the current one that binds the name. -/
def findShadowVar (s : St) (name : String) : Option (Nat × Variable) :=
  match s.getScope s.currentEnv with
  | none => none
  | some sc =>
    match sc.parent with
    | none => none
    | some p => s.resolveFrom (s.scopes.length + 1) p name

end St

/-- Result of evaluating an expression: a value, or a raised SanityError
with message, blame and mood tag. -/
inductive EvRes
  | ok (v : SVal)
  | err (msg blame mood : String)
  deriving Repr

/-- Result of executing a statement: a value, a raised SanityError, or one
of the two control signals (`BreakSignal`, `ReturnSignal`). -/
inductive XRes
  | ok (v : SVal)
  | err (msg blame mood : String)
  | brk
  | ret (v : SVal) (terms : List String)
  deriving Repr

/-- Tag equality of two values (`SanValue.type` comparison). -/
def tagEq : SVal → SVal → Bool
  | .num _, .num _ => true
  | .word _, .word _ => true
  | .yep, .yep => true
  | .nope, .nope => true
  | .dunno, .dunno => true
  | .void, .void => true
  | .list _, .list _ => true
  | .blob _, .blob _ => true
  | _, _ => false

mutual

/-- Referenced variable names of an expression, from
`Interpreter._collect_variable_names` (emotional operators are not
collected, matching the source's isinstance tuple). -/
def collectVariableNames : Expr → List String
  | .varAccess n => [n]
  | .binary l _ r _ _ => sunion (collectVariableNames l) (collectVariableNames r)
  | .comparison l _ r _ => sunion (collectVariableNames l) (collectVariableNames r)
  | .call callee args => collectNamesList args [callee]
  | _ => []

/-- Name collection over an argument list. -/
def collectNamesList : List Expr → List String → List String
  | [], acc => acc
  | e :: es, acc => collectNamesList es (sunion acc (collectVariableNames e))

end

namespace St

/-- Core of `Interpreter._gain_trait` after the blessed/cursed screening:
adds the trait, cancels Tired against Elder, and propagates through bonds. -/
def gainTraitCore (s : St) (sid : Nat) (name : String) (trait : Trait) : St :=
  let s := s.setVarAt sid name fun v =>
    let v := v.addTrait trait
    if v.traits.contains .elder && v.traits.contains .tired then v.discardTrait .tired
    else v
  match s.varAt sid name with
  | none => s
  | some var =>
    var.bonds.foldl
      (fun (s : St) bondedName =>
        let (s, r) := s.envGet bondedName
        match r with
        | none => s
        | some (bsid, bonded) =>
          if bonded.traits.contains trait then s
          else if bonded.traits.contains .paranoid then s
          else
            s.setVarAt bsid bondedName fun v =>
              let v := v.addTrait trait
              let v :=
                if v.traits.contains .elder && v.traits.contains .tired then
                  v.discardTrait .tired
                else v
              if v.traits.contains .blessed && v.traits.contains .cursed then
                v.discardTrait .cursed
              else v)
      s

/-- Trait acquisition with interactions and bond propagation, from
`Interpreter._gain_trait`; `sid`/`name` locate the variable object. -/
def gainTrait (s : St) (sid : Nat) (name : String) (trait : Trait) : St :=
  match s.varAt sid name with
  | none => s
  | some var =>
    if trait = .blessed && var.traits.contains .cursed then
      let s := s.setVarAt sid name fun v => v.discardTrait .cursed
      s.gainTraitCore sid name trait
    else if trait = .cursed && var.traits.contains .blessed then s
    else s.gainTraitCore sid name trait

/-- Mood propagation through bonds, from `Interpreter._propagate_mood`. -/
def propagateMood (s : St) (sid : Nat) (name : String) : St :=
  match s.varAt sid name with
  | none => s
  | some var =>
    var.bonds.foldl
      (fun (s : St) bondedName =>
        let (s, r) := s.envGet bondedName
        match r with
        | none => s
        | some (bsid, bonded) =>
          if bonded.mood ≠ var.mood && !bonded.traits.contains .elder then
            s.setVarAt bsid bondedName fun v =>
              { v with mood := var.mood, moodSetAt := s.stmtCounter }
          else s)
      s

/-- Mood setter with Elder immunity and propagation, from
`Interpreter._set_mood`. -/
def setMood (s : St) (sid : Nat) (name : String) (mood : Mood) : St :=
  match s.varAt sid name with
  | none => s
  | some var =>
    if var.traits.contains .elder then s
    else
      let s := s.setVarAt sid name fun v =>
        { v with mood := mood, moodSetAt := s.stmtCounter }
      s.propagateMood sid name

end St

/-- Variable read, from `Interpreter._eval_var_access`: ghost and whisper
checks, access bookkeeping, envies and jealous convergence, grief, and the
trust / Unlucky / uncertainty chance draws. -/
def evalVarAccess (name : String) (s : St) : St × EvRes :=
  let (s, r) := s.envGet name
  match r with
  | none => (s, .err ("Variable '" ++ name ++ "' is not defined") "" "Neutral")
  | some (sid, var0) =>
    if var0.keyword = "ghost" then
      (s, .err ("Variable '" ++ name ++ "' is a ghost. Use séance to access it.") "" "Neutral")
    else if var0.keyword = "whisper" && !s.hasLocal name then (s, .ok .void)
    else
      let s := s.setVarAt sid name fun v => v.recordAccess s.stmtCounter
      -- Envies convergence: drift a tenth toward each envied variable
      let enviedBy := (alookup s.rel.envies name).getD []
      let s := enviedBy.foldl
        (fun (s : St) enviedName =>
          let (s, r) := s.envGet enviedName
          match r, s.varAt sid name with
          | some (_, envied), some var =>
            match var.value, envied.value with
            | .num a, .num b =>
              s.setVarAt sid name fun v => { v with value := .num (a + (b - a) * (1 : Rat) / 10) }
            | _, _ => s
          | _, _ => s)
        s
      -- Jealous shadow convergence
      let s :=
        match s.varAt sid name with
        | some var =>
          if var.mood = Mood.jealous && var.observed then
            match s.findShadowVar name, var.value with
            | some (_, shadow), .num a =>
              match shadow.value with
              | .num b =>
                s.setVarAt sid name fun v => { v with value := .num (a + (b - a) * (1 : Rat) / 10) }
              | _ => s
            | _, _ => s
          else s
        | none => s
      match s.varAt sid name with
      | none => (s, .ok .void)
      | some var =>
        if var.griefRemaining > 0 then
          (s.setVarAt sid name fun v => { v with griefRemaining := v.griefRemaining - 1 },
           .ok .void)
        else
          let (voidByTrust, s) :=
            if var.trust ≤ 0 then s.drawBool else (false, s)
          if voidByTrust then (s, .ok .void)
          else
            let (voidByLuck, s) :=
              if var.hasTrait .unlucky then s.drawBool else (false, s)
            if voidByLuck then (s, .ok .void)
            else
              let (usePrev, s) :=
                if var.isUncertain && var.previousValue.isSome then s.drawBool
                else (false, s)
              if usePrev then (s, .ok (var.previousValue.getD .void))
              else (s, .ok var.value)

/-- Emotional operator evaluation, from `Interpreter._eval_emotional`:
records the undirected graph edge and the operator's relation entry;
`forgets` purges bonds and every directed relation in both directions. -/
def evalEmotional (left : Expr) (op : String) (right : Expr) (s : St) : St × EvRes :=
  let leftName : Option String := match left with | .varAccess n => some n | _ => none
  let rightName : Option String := match right with | .varAccess n => some n | _ => none
  match leftName, rightName with
  | some ln, some rn =>
    let (s, lv) := s.envGet ln
    let (s, rv) := s.envGet rn
    match lv, rv with
    | some (lsid, leftVar), some (rsid, _) =>
      let s := s.addGraphEdge ln rn
      let relAdd (m : List (String × List String)) (a b : String) :
          List (String × List String) :=
        aset m a (sadd ((alookup m a).getD []) b)
      let s :=
        if op = "loves" then
          if !leftVar.bonds.contains rn then
            let s := s.setVarAt lsid ln fun v => { v with bonds := v.bonds ++ [rn] }
            let s := s.setVarAt rsid rn fun v => { v with bonds := v.bonds ++ [ln] }
            { s with sp := s.sp.bondFormed }
          else s
        else if op = "hates" then
          { s with rel := { s.rel with hates := relAdd (relAdd s.rel.hates ln rn) rn ln } }
        else if op = "fears" then
          { s with rel := { s.rel with fears := relAdd s.rel.fears ln rn } }
        else if op = "envies" then
          { s with rel := { s.rel with envies := relAdd s.rel.envies ln rn } }
        else if op = "ignores" then
          { s with rel := { s.rel with ignores := relAdd s.rel.ignores ln rn } }
        else if op = "mirrors" then
          { s with rel := { s.rel with mirrors := relAdd s.rel.mirrors ln rn } }
        else if op = "haunts" then
          { s with rel := { s.rel with haunts := relAdd s.rel.haunts ln rn } }
        else if op = "forgets" then
          let s := s.setVarAt lsid ln fun v => { v with bonds := v.bonds.filter (· ≠ rn) }
          let s := s.setVarAt rsid rn fun v => { v with bonds := v.bonds.filter (· ≠ ln) }
          let s := s.removeGraphEdge ln rn
          let purge (m : List (String × List String)) : List (String × List String) :=
            let m := if (alookup m ln).isSome then aupdate m ln (fun es => sdiscard es rn) else m
            if (alookup m rn).isSome then aupdate m rn (fun es => sdiscard es ln) else m
          { s with rel :=
              { hates := purge s.rel.hates, fears := purge s.rel.fears
                envies := purge s.rel.envies, ignores := purge s.rel.ignores
                mirrors := purge s.rel.mirrors, haunts := purge s.rel.haunts } }
        else s
      (s, .ok .yep)
    | _, _ => (s, .err "Variable not found for emotional operator" "" "Neutral")
  | _, _ => (s, .err "Emotional operators require variable names" "" "Neutral")

/-- The Afterlife branch of `Interpreter._eval_seance`. -/
def evalSeanceAfterlife (name : String) (s : St) : St × EvRes :=
  match alookup s.afterlife name with
  | none => (s, .ok .void)
  | some [] => (s, .ok .void)
  | some entries =>
    match entries.getLast? with
    | none => (s, .ok .void)
    | some (value, mood, scars, count) =>
      if count ≥ 3 then
        ({ s with afterlife := aset s.afterlife name entries.dropLast }, .ok .void)
      else
        let bumped := entries.dropLast ++ [(value, mood, scars, count + 1)]
        let s := { s with afterlife := aset s.afterlife name bumped }
        if mood = .afraid then (s, .ok .void)
        else (s, .ok value.copy)

/-- Séance evaluation, from `Interpreter._eval_seance`: live ghost variables
are read directly; otherwise the newest Afterlife entry is served, at most
3 times, and a variable that died Afraid yields Void. -/
def evalSeance (name : String) (s : St) : St × EvRes :=
  let s := { s with sp := s.sp.seanceUse }
  let (s, r) := s.envGet name
  match r with
  | some (sid, var) =>
    if var.keyword = "ghost" then
      let s := s.setVarAt sid name fun v => v.recordAccess s.stmtCounter
      (s, .ok var.value)
    else evalSeanceAfterlife name s
  | none => evalSeanceAfterlife name s

/-- Delete statement, from `_exec_delete` in `runtime_statements.py`: sends
the value to the Afterlife, handles pinky pairs, grieving bonds and haunts,
then purges the name from every relation store.  The variable is not
removed from its environment. -/
def execDelete (name : String) (s : St) : St × XRes :=
  let (s, r) := s.envGet name
  match r with
  | none => (s, .ok .void)
  | some (_, var) =>
    let s := s.sendToAfterlife name var.value var.mood var.scars
    -- Pinky bonds: the source is sent along
    let s :=
      match var.pinkySource with
      | none => s
      | some src =>
        let (s, r2) := s.envGet src
        match r2 with
        | none => s
        | some (_, source) =>
          let s := s.sendToAfterlife src source.value source.mood source.scars
          { s with sp := s.sp.pinkyBreak }
    -- Emotional bonds: grief
    let s := var.bonds.foldl
      (fun (s : St) bondedName =>
        let (s, r2) := s.envGet bondedName
        match r2 with
        | none => s
        | some (bsid, _) =>
          let s := s.setVarAt bsid bondedName fun v => { v with griefRemaining := 5 }
          { s with sp := s.sp.bondBroken })
      s
    -- Haunts: the haunted target turns Afraid with a long grief
    let hauntsTargets := (alookup s.rel.haunts name).getD []
    let s := hauntsTargets.foldl
      (fun (s : St) targetName =>
        let (s, r2) := s.envGet targetName
        match r2 with
        | none => s
        | some (tsid, _) =>
          s.setVarAt tsid targetName fun v =>
            { v with mood := .afraid, griefRemaining := 100 })
      s
    -- Purge the deleted name from every relation store
    let clean (m : List (String × List String)) : List (String × List String) :=
      (aremove m name).map fun kv => (kv.1, sdiscard kv.2 name)
    let s := { s with rel :=
        { hates := clean s.rel.hates, fears := clean s.rel.fears
          envies := clean s.rel.envies, ignores := clean s.rel.ignores
          mirrors := clean s.rel.mirrors, haunts := clean s.rel.haunts } }
    let s := if var.keyword = "ghost" then { s with ghostCount := s.ghostCount - 1 } else s
    (s, .ok .void)

/-- Cry statement, from `_exec_cry`: prints a crash line and raises. -/
def execCry (message : String) (s : St) : St × XRes :=
  let s := { s with output := s.output ++ ["[CRASH] " ++ message] }
  (s, .err message "" "Neutral")

/-- Terminator effects, from `_apply_terminators` in
`runtime_statements.py`, applied left to right after a statement's own
evaluation. -/
def applyTerminators (value : SVal) (terms : List String) (s : St) : St × SVal :=
  let applyOne (s : St) (term : String) : St :=
    if term = "~" then
      if s.banned.contains "uncertainty" then s
      else
        s.allVars.foldl
          (fun (s : St) nv =>
            match s.varAt nv.2 nv.1 with
            | some var =>
              if var.lastAccessed = s.stmtCounter then
                s.setVarAt nv.2 nv.1 fun v => { v with isUncertain := true }
              else s
            | none => s)
          s
    else if term = "!" then
      s.allVars.foldl
        (fun (s : St) nv =>
          match s.varAt nv.2 nv.1 with
          | some var =>
            if var.lastAccessed = s.stmtCounter then
              s.setVarAt nv.2 nv.1 fun v => { v with traits := [] }
            else s
          | none => s)
        s
    else if term = "?" then
      let s := { s with output := s.output ++ ["[?] " ++ svalStr value] }
      s.allVars.foldl
        (fun (s : St) nv =>
          match s.varAt nv.2 nv.1 with
          | some var =>
            if var.lastAccessed = s.stmtCounter then
              let s := s.setVarAt nv.2 nv.1 fun v => { v with observed := true }
              match s.varAt nv.2 nv.1 with
              | some var2 =>
                match var2.value with
                | .dunno =>
                  let (b, s) := s.drawBool
                  s.setVarAt nv.2 nv.1 fun v =>
                    { v with value := if b then .yep else .nope }
                | _ => s
              | none => s
            else s
          | none => s)
        s
    else s
  (terms.foldl applyOne s, value)

/-- Periodic variable sweep, from the `stmt_counter % 50` block of
`Interpreter.execute`: self-mutation, mood decay, neglect, observation
expiry, and the Popular / Lonely graph-degree effects. -/
def sweep (s : St) : St :=
  s.allVars.foldl
    (fun (s : St) nv =>
      let (name, sid) := nv
      match s.varAt sid name with
      | none => s
      | some _ =>
        -- check_whatever_mutation with the state's oracle stream
        let s :=
          match s.varAt sid name with
          | some var =>
            let (var, rng) := var.checkWhateverMutation s.rngInts
            let s := s.setVarAt sid name fun _ => var
            { s with rngInts := rng }
          | none => s
        let s := s.setVarAt sid name fun v => v.checkMoodDecay s.stmtCounter
        let s := s.setVarAt sid name fun v => v.checkSadFromNeglect s.stmtCounter
        let s := s.setVarAt sid name fun v =>
          if v.observed && s.stmtCounter - v.lastAccessed ≥ 200 then
            { v with observed := false }
          else v
        let edgeCount := ((alookup s.graphEdges name).getD []).length
        let s :=
          match s.varAt sid name with
          | some var =>
            if edgeCount ≥ 5 && !var.traits.contains .popular then
              s.gainTrait sid name .popular
            else s
          | none => s
        let s :=
          match s.varAt sid name with
          | some var =>
            if edgeCount = 0 && s.stmtCounter - var.lastAccessed ≥ 100
                && !var.traits.contains .lonely then
              s.gainTrait sid name .lonely
            else s
          | none => s
        let s :=
          match s.varAt sid name with
          | some var =>
            if var.traits.contains .popular then
              s.setVarAt sid name fun v => { v with trust := min 100 (v.trust + 1) }
            else s
          | none => s
        match s.varAt sid name with
        | some var =>
          if var.traits.contains .lonely then
            let s := s.setVarAt sid name fun v => { v with trust := max 0 (v.trust - 1) }
            match s.varAt sid name with
            | some var2 =>
              if var2.mood = .neutral then
                s.setVarAt sid name fun v =>
                  { v with mood := .sad, moodSetAt := s.stmtCounter }
              else s
            | none => s
          else s
        | none => s)
    s

/-- Insanity-mode value swap, from `_apply_insanity_effects`: every 20th
statement under insanity, two randomly drawn variables swap values when
they share a graph edge (`random.sample` modelled by two oracle draws, the
second skipping the first pick). -/
def insanityEffects (s : St) : St :=
  let s := { s with insanitySwapCounter := s.insanitySwapCounter + 1 }
  if s.insanitySwapCounter ≥ 20 then
    let s := { s with insanitySwapCounter := 0 }
    let names := s.allVars.map Prod.fst
    if names.length ≥ 2 then
      let (i, s) := s.drawInt
      let (j, s) := s.drawInt
      let ai := i.toNat % names.length
      let a := names.getD ai ""
      let rest := names.eraseIdx ai
      let b := rest.getD (j.toNat % rest.length) ""
      match s.resolve a, s.resolve b with
      | some (asid, va), some (bsid, vb) =>
        if ((alookup s.graphEdges b).getD []).contains a then
          let s := s.setVarAt asid a fun v => { v with value := vb.value }
          s.setVarAt bsid b fun v => { v with value := va.value }
        else s
      | _, _ => s
    else s
  else s

/-- Mirror synchronisation, from `Interpreter.execute`: applies the pending
deferred writes, clears them, and re-arms one pending write per mirroring
variable from its target's current value. -/
def mirrorSync (s : St) : St :=
  let s := s.mirrorPending.foldl
    (fun (s : St) p =>
      let (s, r) := s.envGet p.1
      match r with
      | none => s
      | some (sid, _) => s.setVarAt sid p.1 fun v => { v with value := p.2 })
    s
  let s := { s with mirrorPending := [] }
  s.rel.mirrors.foldl
    (fun (s : St) mt =>
      mt.2.foldl
        (fun (s : St) target =>
          let (s, r) := s.envGet target
          match r with
          | none => s
          | some (_, sourceVar) =>
            { s with mirrorPending := aset s.mirrorPending mt.1 sourceVar.value.copy })
        s)
    s

/-- The bookkeeping prefix of `Interpreter.execute`: statement counter,
history, ghost tax every 100 statements, sweep every 50, insanity effects. -/
def presteps (node : Stmt) (s : St) : St :=
  let s := { s with stmtCounter := s.stmtCounter + 1, stmtHistory := s.stmtHistory ++ [node] }
  let s :=
    if s.stmtCounter % 100 = 0 && s.ghostCount > 0 then
      { s with sp := s.sp.ghostTax s.ghostCount }
    else s
  let s := if s.stmtCounter % 50 = 0 then sweep s else s
  if s.sp.insanityMode then insanityEffects s else s

/-- Bond detection on the current scope, from `Environment.detect_bonds`:
same-typed variables declared within 3 lines bond pairwise; returns the
newly formed pairs. -/
def detectBonds (s : St) : List (String × String) × St :=
  match s.getScope s.currentEnv with
  | none => ([], s)
  | some sc =>
    let indexed := sc.declOrder.enum
    let pairs := indexed.foldl
      (fun acc p =>
        indexed.foldl
          (fun acc q => if p.1 ≥ q.1 then acc else acc ++ [(p.2, q.2)])
          acc)
      ([] : List ((String × Nat) × (String × Nat)))
    pairs.foldl
      (fun (acc : List (String × String) × St) pq =>
        let (bonds, s) := acc
        let ((nameA, lineA), (nameB, lineB)) := pq
        if (max lineA lineB) - (min lineA lineB) ≤ 3 then
          match s.varAt s.currentEnv nameA, s.varAt s.currentEnv nameB with
          | some varA, some varB =>
            if tagEq varA.value varB.value then
              if !varA.bonds.contains nameB then
                let s := s.setVarAt s.currentEnv nameA fun v =>
                  { v with bonds := v.bonds ++ [nameB] }
                let s := s.setVarAt s.currentEnv nameB fun v =>
                  { v with bonds := v.bonds ++ [nameA] }
                (bonds ++ [(nameA, nameB)], s)
              else (bonds, s)
            else (bonds, s)
          | _, _ => (bonds, s)
        else (bonds, s))
      ([], s)

/-- Lift of an expression result into a statement result. -/
def EvRes.toX : EvRes → XRes
  | .ok v => .ok v
  | .err m b md => .err m b md

/-- Python `int(...)` truncation of a rational toward zero (`Int.div` is
truncating division). -/
def ratTrunc (q : Rat) : Int := q.num.tdiv (q.den : Int)

/-- Python float `%`: remainder with the divisor's sign,
`a - b * floor(a / b)`. -/
def ratMod (a b : Rat) : Rat := a - b * (Int.floor (a / b) : Int)

/-- Python `**` on the numeric payloads; defined for integral exponents (a
fractional exponent would produce an irrational float, which no embedded
program builds). -/
def ratPow (a b : Rat) : Option Rat :=
  if b.den = 1 then
    if 0 ≤ b.num then some (a ^ b.num.toNat)
    else if a = 0 then none
    else some ((1 / a) ^ (-b.num).toNat)
  else none

/-- Word-character test of the interpolation regex (`\w`). -/
def isWordChar (c : Char) : Bool :=
  c.isAlpha || c.isDigit || c = '_'

/-- String interpolation, from the `StringLiteral` branch of
`Interpreter.evaluate`: each well-formed brace group naming a known
variable is replaced by the variable's rendered value (recording an
access); anything else is kept verbatim. -/
def interpolateStr (fuel : Nat) (cs : List Char) (s : St) : St × List Char :=
  match fuel, cs with
  | 0, cs => (s, cs)
  | _ + 1, [] => (s, [])
  | fuel + 1, c :: rest =>
    if c = '\x7b' then
      let nameChars := rest.takeWhile isWordChar
      let afterName := rest.drop nameChars.length
      match afterName with
      | '\x7d' :: tail =>
        if nameChars.isEmpty then
          let (s, out) := interpolateStr fuel rest s
          (s, c :: out)
        else
          let vname : String := ⟨nameChars⟩
          let (s, r) := s.envGet vname
          match r with
          | some (sid, var) =>
            let s := s.setVarAt sid vname fun v => v.recordAccess s.stmtCounter
            let (s, out) := interpolateStr fuel tail s
            (s, (svalStr var.value).data ++ out)
          | none =>
            let (s, out) := interpolateStr fuel tail s
            (s, (c :: nameChars) ++ ('\x7d' :: out))
      | _ =>
        let (s, out) := interpolateStr fuel rest s
        (s, c :: out)
    else
      let (s, out) := interpolateStr fuel rest s
      (s, c :: out)

/-- Evaluation of a string literal, with interpolation only when a brace is
present (mirrors the `"{" in val` guard). -/
def evalStrLit (raw : String) (s : St) : St × SVal :=
  if raw.data.contains '\x7b' then
    let (s, out) := interpolateStr (raw.length + 1) raw.data s
    (s, .word ⟨out⟩)
  else (s, .word raw)

/-- First hates-style violation among the ignores pairs of a binary
expression, from the pair loop of `Interpreter._eval_binary`. -/
def ignoresViolation (s : St) (leftVars rightVars : List String) :
    Option (String × String × Bool) :=
  leftVars.foldl
    (fun acc lv =>
      match acc with
      | some v => some v
      | none =>
        rightVars.foldl
          (fun acc rv =>
            match acc with
            | some v => some v
            | none =>
              if ((alookup s.rel.ignores lv).getD []).contains rv then
                some (lv, rv, true)
              else if ((alookup s.rel.ignores rv).getD []).contains lv then
                some (lv, rv, false)
              else none)
          none)
    none

/-- The SP-cost prefix of `_exec_var_decl`, run before the right-hand side
is evaluated: name-length costs and the whatever / curse declaration
costs. -/
def varDeclSpPhase (keyword name : String) (s : St) : St :=
  let s :=
    if name.length = 1 then { s with sp := s.sp.singleCharName }
    else if name.length > 20 then { s with sp := s.sp.longName }
    else s
  let s :=
    if keyword = "whatever" then { s with sp := s.sp.whateverDeclaration } else s
  if keyword = "curse" then { s with sp := s.sp.curseDeclaration } else s

/-- The hates-enforcement scan of `_exec_assignment`: the first variable the
target hates whose current payload equals the new value, if any (each
lookup marks the hated variable used, as `Environment.get` does). -/
def assignHatesCheck (name : String) (newValue : SVal) (s : St) :
    St × Option String :=
  ((alookup s.rel.hates name).getD []).foldl
    (fun (acc : St × Option String) hatedName =>
      match acc with
      | (s, some h) => (s, some h)
      | (s, none) =>
        let (s, r2) := s.envGet hatedName
        match r2 with
        | some (_, hatedVar) =>
          if payloadEq hatedVar.value newValue then (s, some hatedName)
          else (s, none)
        | none => (s, none))
    (s, none)

/-! The mutually recursive executor.  Every function consumes one unit of
fuel per call; running out of fuel is reported as an error (a modelling
artifact only: the concrete runs below use ample fuel, and the general
theorems quantify over it). -/

/-! The mutually recursive executor functions are realised as one bundle of
functions per fuel level (`Evals`), built by a bare recursor over the fuel.
Each `...Step` definition is the body of the corresponding interpreter
function at a positive fuel value, with recursive calls taken from the
previous level's bundle; the fuel-indexed functions themselves are thin
wrappers projecting from `evals fuel`. -/

/-- Bundle of the interpreter's mutually recursive evaluator and executor
functions at one fuel level. -/
structure Evals where
  evalExpr : Expr → St → St × XRes
  evalArgs : List Expr → St → St × (List SVal ⊕ XRes)
  evalBinary : Expr → String → Expr → Nat → Nat → St → St × XRes
  evalComparison : Expr → String → Expr → Nat → St → St × XRes
  evalCall : String → List Expr → St → St × XRes
  callFunction : String → List SVal → FuncData → Nat → St → St × XRes
  fireEvent : String → String → St → St × Option XRes
  execVarDecl : String → String → Option Expr → Nat → St → St × XRes
  execAssignment : String → Expr → St → St × XRes
  execPrint : Expr → St → St × XRes
  execIf : Expr → List Stmt → List (Expr × List Stmt) → Option (List Stmt) → St → St × XRes
  execIfButs : List (Expr × List Stmt) → Option (List Stmt) → Bool → St → St × XRes
  execPls : Expr → Option String → List Stmt → Nat → St → St × XRes
  execPlsIter : Nat → Int → Option String → List Stmt → Nat → St → SVal → St × XRes
  execTry : List Stmt → Option String → Option (List Stmt) → Option (List Stmt) → Nat → St → St × XRes
  execYolo : List Stmt → St → St × XRes
  execYoloIter : List Stmt → St → Nat → St × Nat
  execFuncDecl : String → String → List String → List Stmt → Option Expr → Nat → St → St × XRes
  dispatch : Stmt → St → St × XRes
  execStmt : Stmt → St → St × XRes
  execSeqV : List Stmt → St → SVal → St × SVal × Option XRes
  execBlockFn : List Stmt → St → St × XRes

/-- Exhausted-fuel bundle: every function reports the out-of-fuel error in
its own result shape. -/
def evalsOut : Evals where
  evalExpr := fun _ s => (s, .err "out of fuel" "" "Neutral")
  evalArgs := fun _ s => (s, .inr (.err "out of fuel" "" "Neutral"))
  evalBinary := fun _ _ _ _ _ s => (s, .err "out of fuel" "" "Neutral")
  evalComparison := fun _ _ _ _ s => (s, .err "out of fuel" "" "Neutral")
  evalCall := fun _ _ s => (s, .err "out of fuel" "" "Neutral")
  callFunction := fun _ _ _ _ s => (s, .err "out of fuel" "" "Neutral")
  fireEvent := fun _ _ s => (s, some (.err "out of fuel" "" "Neutral"))
  execVarDecl := fun _ _ _ _ s => (s, .err "out of fuel" "" "Neutral")
  execAssignment := fun _ _ s => (s, .err "out of fuel" "" "Neutral")
  execPrint := fun _ s => (s, .err "out of fuel" "" "Neutral")
  execIf := fun _ _ _ _ s => (s, .err "out of fuel" "" "Neutral")
  execIfButs := fun _ _ _ s => (s, .err "out of fuel" "" "Neutral")
  execPls := fun _ _ _ _ s => (s, .err "out of fuel" "" "Neutral")
  execPlsIter := fun _ _ _ _ _ s _ => (s, .err "out of fuel" "" "Neutral")
  execTry := fun _ _ _ _ _ s => (s, .err "out of fuel" "" "Neutral")
  execYolo := fun _ s => (s, .err "out of fuel" "" "Neutral")
  execYoloIter := fun _ s saved => (s, saved)
  execFuncDecl := fun _ _ _ _ _ _ s => (s, .err "out of fuel" "" "Neutral")
  dispatch := fun _ s => (s, .err "out of fuel" "" "Neutral")
  execStmt := fun _ s => (s, .err "out of fuel" "" "Neutral")
  execSeqV := fun _ s cur => (s, cur, some (.err "out of fuel" "" "Neutral"))
  execBlockFn := fun _ s => (s, .err "out of fuel" "" "Neutral")

/-- Expression dispatch, from `Interpreter.evaluate`. -/
def evalExprStep (prev : Evals) (e : Expr) (s : St) :
    St × XRes :=
    match e with
    | .numLit q => (s, .ok (.num q))
    | .strLit raw =>
      let (s, v) := evalStrLit raw s
      (s, .ok v)
    | .boolLit b =>
      if b = "yep" then (s, .ok .yep)
      else if b = "nope" then (s, .ok .nope)
      else (s, .ok .dunno)
    | .voidLit => (s, .ok .void)
    | .varAccess name =>
      let (s, r) := evalVarAccess name s
      (s, r.toX)
    | .binary l op r lsp rsp => prev.evalBinary l op r lsp rsp s
    | .comparison l op r eqc => prev.evalComparison l op r eqc s
    | .emotional l op r =>
      let (s, r) := evalEmotional l op r s
      (s, r.toX)
    | .call callee args => prev.evalCall callee args s
    | .seance name =>
      let (s, r) := evalSeance name s
      (s, r.toX)

/-- Left-to-right evaluation of an argument list (the list comprehension in
`_eval_function_call`); the first raised signal aborts. -/
def evalArgsStep (prev : Evals) (es : List Expr) (s : St) :
    St × (List SVal ⊕ XRes) :=
    match es with
    | [] => (s, .inl [])
    | e :: es =>
      match prev.evalExpr e s with
      | (s, .ok v) =>
        match prev.evalArgs es s with
        | (s, .inl vs) => (s, .inl (v :: vs))
        | (s, .inr x) => (s, .inr x)
      | (s, x) => (s, .inr x)

/-- Binary expressions, from `Interpreter._eval_binary`: whitespace
ambiguity cost, ignores screening, angry swap, Void/Dunno propagation,
coercion with scarring, concatenation, arithmetic with the left operand's
mood modifier, and word concatenation via `+`. -/
def evalBinaryStep (prev : Evals) (l : Expr) (op : String) (r : Expr) (lsp : Nat) (rsp : Nat) (s : St) :
    St × XRes :=
    let s :=
      if lsp = rsp && lsp > 0 then { s with sp := s.sp.ambiguousPrecedence } else s
    let leftVars := collectVariableNames l
    let rightVars := collectVariableNames r
    match ignoresViolation s leftVars rightVars with
    | some (lv, rv, forward) =>
      if forward then
        (s, .err ("'" ++ lv ++ "' ignores '" ++ rv ++
          "' — they cannot appear in the same expression") "" "Neutral")
      else
        (s, .err ("'" ++ rv ++ "' ignores '" ++ lv ++
          "' — they cannot appear in the same expression") "" "Neutral")
    | none =>
      match prev.evalExpr l s with
      | (s, .ok left) =>
        match prev.evalExpr r s with
        | (s, .ok right) =>
          -- Angry swap of the two operand variables' stored values
          let (s, left, right) :=
            match l, r with
            | .varAccess ln, .varAccess rn =>
              let (s, lv) := s.envGet ln
              let (s, rv) := s.envGet rn
              match lv, rv with
              | some (lsid, lvar), some (rsid, rvar) =>
                if lvar.mood = Mood.angry && rvar.mood = Mood.angry then
                  let s := s.setVarAt lsid ln fun v => { v with value := rvar.value.copy }
                  let s := s.setVarAt rsid rn fun v => { v with value := lvar.value.copy }
                  match s.varAt lsid ln, s.varAt rsid rn with
                  | some lvar2, some rvar2 => (s, lvar2.value, rvar2.value)
                  | _, _ => (s, left, right)
                else (s, left, right)
              | _, _ => (s, left, right)
            | _, _ => (s, left, right)
          if isVoid left || isVoid right then (s, .ok .void)
          else
            match left, right with
            | .dunno, _ => (s, .ok .dunno)
            | _, .dunno => (s, .ok .dunno)
            | _, _ =>
              let (leftC, rightC, lCo, rCo) := coerce left right op
              let s :=
                if lCo then
                  match l with
                  | .varAccess ln =>
                    let (s, r2) := s.envGet ln
                    match r2 with
                    | some (sid, var) =>
                      if !var.hasTrait .resilient then
                        s.setVarAt sid ln fun v => v.addScar
                      else s
                    | none => s
                  | _ => s
                else s
              let s :=
                if rCo then
                  match r with
                  | .varAccess rn =>
                    let (s, r2) := s.envGet rn
                    match r2 with
                    | some (sid, var) =>
                      if !var.hasTrait .resilient then
                        s.setVarAt sid rn fun v => v.addScar
                      else s
                    | none => s
                  | _ => s
                else s
              if op = "&" then
                (s, .ok (.word (payloadStr leftC ++ payloadStr rightC)))
              else
                match leftC, rightC with
                | .num lv0, .num rv0 =>
                  let (lv, rv, s) :=
                    if s.sp.insanityMode then
                      let (n1, s) := s.drawRat
                      let (n2, s) := s.drawRat
                      (lv0 * (1 + n1), rv0 * (1 + n2), s)
                    else (lv0, rv0, s)
                  let resultE : Sum Rat (String × String × String) :=
                    if op = "+" then .inl (lv + rv)
                    else if op = "-" then .inl (lv - rv)
                    else if op = "*" then .inl (lv * rv)
                    else if op = "/" then
                      if rv = 0 then .inr ("Division by zero", "", "Neutral")
                      else .inl (lv / rv)
                    else if op = "%" then
                      if rv = 0 then .inr ("Modulo by zero", "", "Neutral")
                      else .inl (ratMod lv rv)
                    else if op = "^" then
                      match ratPow lv rv with
                      | some q => .inl q
                      | none => .inr ("unmodelled power operand", "", "Neutral")
                    else .inr ("Unknown operator: " ++ op, "", "Neutral")
                  match resultE with
                  | .inr (m, b, md) => (s, .err m b md)
                  | .inl result =>
                    let (s, result) :=
                      match l with
                      | .varAccess ln =>
                        let (s, r2) := s.envGet ln
                        match r2 with
                        | some (_, var) => (s, var.applyMoodToNumber result)
                        | none => (s, result)
                      | _ => (s, result)
                    (s, .ok (.num result))
                | .word a, .word b =>
                  if op = "+" then (s, .ok (.word (a ++ b)))
                  else (s, .err ("Cannot apply '" ++ op ++ "' to Words") "" "Neutral")
                | lc, rc =>
                  (s, .err ("Type error: " ++ svalStr lc ++ " " ++ op ++ " " ++ svalStr rc)
                    "" "Neutral")
        | (s, x) => (s, x)
      | (s, x) => (s, x)

/-- Comparisons, from `Interpreter._eval_comparison`: a right-hand Afraid
variable yields Void; vibes / loose / strict / identity equality, numeric
orderings, and the extended equality chain beyond four equal signs. -/
def evalComparisonStep (prev : Evals) (l : Expr) (op : String) (r : Expr) (eqc : Nat) (s : St) :
    St × XRes :=
    match prev.evalExpr l s with
    | (s, .ok left) =>
      match prev.evalExpr r s with
      | (s, .ok right) =>
        let afraidRight : Bool × St :=
          match r with
          | .varAccess rn =>
            let (s, r2) := s.envGet rn
            match r2 with
            | some (_, rvar) => (rvar.mood = Mood.afraid, s)
            | none => (false, s)
          | _ => (false, s)
        let (isAfraid, s) := afraidRight
        if isAfraid then (s, .ok .void)
        else
          let (result, s) : Bool × St :=
            if op = "~=" then (vibesEqual left right, s)
            else if op = "==" then (looseEqual left right, s)
            else if op = "===" then (strictEqual left right, s)
            else if op = "====" then
              match l, r with
              | .varAccess ln, .varAccess rn => (ln = rn, s)
              | _, _ => (false, s)
            else if op = "!=" then (!looseEqual left right, s)
            else if op = "<" then
              match left, right with
              | .num a, .num b => (a < b, s)
              | _, _ => (false, s)
            else if op = ">" then
              match left, right with
              | .num a, .num b => (a > b, s)
              | _, _ => (false, s)
            else if op = "<=" then
              match left, right with
              | .num a, .num b => (a ≤ b, s)
              | _, _ => (false, s)
            else if op = ">=" then
              match left, right with
              | .num a, .num b => (a ≥ b, s)
              | _, _ => (false, s)
            else
              -- Extended equality (5 or more equal signs)
              let result := strictEqual left right
              if result && eqc ≥ 5 then
                let (s, lv) :=
                  match l with
                  | .varAccess ln => s.envGet ln
                  | _ => (s, none)
                let (s, rv) :=
                  match r with
                  | .varAccess rn => s.envGet rn
                  | _ => (s, none)
                match lv, rv with
                | some (_, a), some (_, b) =>
                  let result := result && (a.mood = b.mood)
                  let result := if eqc ≥ 6 then result && (a.trust = b.trust) else result
                  let result := if eqc ≥ 7 then result && (a.age = b.age) else result
                  let result := if eqc ≥ 8 then result && (a.scars = b.scars) else result
                  let result := if eqc ≥ 9 then result && (a.doubt = b.doubt) else result
                  let result :=
                    if eqc ≥ 10 then result && (a.bonds.length = b.bonds.length) else result
                  (result, s)
                | _, _ => (result, s)
              else (result, s)
          (s, .ok (if result then .yep else .nope))
      | (s, x) => (s, x)
    | (s, x) => (s, x)

/-- Function-call expressions, from `Interpreter._eval_function_call`
restricted to a plain named callee: the two builtin names, function lookup,
argument evaluation, and the call itself. -/
def evalCallStep (prev : Evals) (callee : String) (args : List Expr) (s : St) :
    St × XRes :=
    if callee = "__chill__" then
      match args with
      | [] => (s, .ok .void)
      | a :: _ => prev.evalExpr a s
    else if callee = "__mood_lock__" then (s, .ok .void)
    else
      match alookup s.functions callee with
      | none => (s, .err ("Function '" ++ callee ++ "' is not defined") "" "Neutral")
      | some (fd, closureEnv) =>
        match prev.evalArgs args s with
        | (s, .inl vs) => prev.callFunction callee vs fd closureEnv s
        | (s, .inr x) => (s, x)

/-- Function invocation, from `Interpreter._call_function`: might guards,
will stubs, pinned returns, call counting with its SP effects, `did`
memoization, the resentful Void chance, closure copies (scream variables
are shared by reference in Python; the model stores their current record),
parameter binding, body execution, return-terminator handling, the tired
decrement at 50+ calls, and memo insertion with 1000-entry eviction. -/
def callFunctionStep (prev : Evals) (name : String) (args : List SVal) (fd : FuncData) (closureEnv : Nat) (s : St) :
    St × XRes :=
    let guardRes : St × Option XRes :=
      if fd.keyword = "might" then
        match fd.cond with
        | some c =>
          match prev.evalExpr c s with
          | (s, .ok cond) =>
            if !isTruthy cond then (s, some (.ok .void)) else (s, none)
          | (s, x) => (s, some x)
        | none => (s, none)
      else (s, none)
    match guardRes with
    | (s, some early) => (s, early)
    | (s, none) =>
      if fd.keyword = "will" && fd.body.isEmpty then (s, .ok .dunno)
      else
        match alookup s.cachedReturns name with
        | some pinned => (s, .ok pinned)
        | none =>
          let count := (alookup s.callCounts name).getD 0 + 1
          let s := { s with callCounts := aset s.callCounts name count }
          let s := s.addGraphEdge name ("__caller_" ++ toString s.currentEnv)
          let s :=
            if count = 1 then { s with sp := s.sp.firstFunctionCall }
            else if count ≥ 10 then { s with sp := s.sp.repetitionPenalty }
            else s
          let s :=
            if count = 25 then
              { s with output := s.output ++
                  ["[compiler] Function '" ++ name ++
                   "' has been called 25 times. Maybe refactor?"] }
            else s
          -- Memoization lookup for did functions (setdefault installs the dict)
          let key := args.map svalStr
          let memoHit : St × Option SVal :=
            if fd.keyword = "did" then
              let s :=
                if (alookup s.memoCaches name).isNone then
                  { s with memoCaches := aset s.memoCaches name [] }
                else s
              let cache := (alookup s.memoCaches name).getD []
              match cache.find? (fun e => e.1 = key) with
              | some e => (s, some e.2)
              | none => (s, none)
            else (s, none)
          match memoHit with
          | (s, some cached) => (s, .ok cached)
          | (s, none) =>
            let (resentfulVoid, s) :=
              if count ≥ 100 then s.drawBool else (false, s)
            if resentfulVoid then (s, .ok .void)
            else
              let (fid, s) := s.pushScope closureEnv
              let s := { s with sp := s.sp.enterScope }
              -- Closure copies (scream variables keep their record shared)
              let closureVars := s.allVarsFrom (s.scopes.length + 1) closureEnv
              let s := closureVars.foldl
                (fun (s : St) nv =>
                  match s.varAt nv.2 nv.1 with
                  | none => s
                  | some var =>
                    let bound :=
                      if var.keyword = "scream" then var
                      else
                        { name := var.name, value := var.value
                          keyword := var.keyword, declLine := var.declLine
                          mood := var.mood, traits := var.traits
                          trust := var.trust, scars := var.scars : Variable }
                    match s.getScope fid with
                    | none => s
                    | some sc =>
                      s.setScope fid
                        { sc with vars := aset sc.vars nv.1 bound
                                  declOrder := sc.declOrder ++ [(nv.1, bound.declLine)] })
                s
              -- Parameter binding over the captured copies
              let s := fd.params.enum.foldl
                (fun (s : St) ip =>
                  let v := args.getD ip.1 .void
                  let pvar : Variable :=
                    { name := ip.2, value := v, keyword := "sure", declLine := fd.line }
                  match s.getScope fid with
                  | none => s
                  | some sc =>
                    s.setScope fid
                      { sc with vars := aset sc.vars ip.2 pvar
                                declOrder := sc.declOrder ++ [(ip.2, fd.line)] })
                s
              let oldEnv := s.currentEnv
              let s := { s with currentEnv := fid }
              let (s, last, sig) := prev.execSeqV fd.body s .void
              let s := { s with currentEnv := oldEnv }
              let afterBody : St × Sum (SVal × List String) XRes :=
                match sig with
                | none => (s, .inl (last, []))
                | some (.ret v terms) => (s, .inl (v, terms))
                | some x => (s, .inr x)
              match afterBody with
              | (s, .inr x) => (s, x)
              | (s, .inl (result0, retTerms)) =>
                -- Return-terminator processing at the call site
                let s := retTerms.foldl
                  (fun (s : St) term =>
                    if term = ".." then
                      { s with cachedReturns := aset s.cachedReturns name result0 }
                    else if term = "?" then
                      { s with output := s.output ++ ["[?] " ++ svalStr result0] }
                    else s)
                  s
                -- Tired function at 50+ calls
                let result :=
                  if count ≥ 50 then
                    match result0 with
                    | .num q => .num (q - 1)
                    | .word w => if w.length > 0 then .word (w.dropRight 1) else .word w
                    | v => v
                  else result0
                -- Memo insertion for did functions, with eviction
                let s :=
                  if fd.keyword = "did" then
                    let s :=
                      if (alookup s.memoCaches name).isNone then
                        { s with memoCaches := aset s.memoCaches name [] }
                      else s
                    let cache := (alookup s.memoCaches name).getD []
                    let cache :=
                      if (cache.find? fun e => e.1 = key).isSome then
                        cache.map fun e => if e.1 = key then (key, result) else e
                      else cache ++ [(key, result)]
                    if cache.length > 1000 then
                      match cache with
                      | [] => { s with memoCaches := aset s.memoCaches name cache }
                      | oldest :: restCache =>
                        let s := s.sendToAfterlife
                          ("__memo_" ++ name ++ "_(" ++ String.intercalate ", " oldest.1 ++ ")")
                          oldest.2 .neutral 0
                        { s with memoCaches := aset s.memoCaches name restCache }
                    else { s with memoCaches := aset s.memoCaches name cache }
                  else s
                -- Excited-mood bookkeeping for first calls
                let s :=
                  if count = 1 then
                    { s with firstCallResults := sadd s.firstCallResults name }
                  else
                    { s with firstCallResults := sdiscard s.firstCallResults name }
                (s, .ok result)

/-- Event firing, from `Interpreter._fire_event`: runs the listener blocks
for the exact key and the `any:` wildcard (there are never registered
listeners in the embedded programs, but the structure is kept). -/
def fireEventStep (prev : Evals) (target : String) (eventType : String) (s : St) :
    St × Option XRes :=
    let runKey (s : St) (key : String) : St × Option XRes :=
      ((alookup s.listeners key).getD []).foldl
        (fun (acc : St × Option XRes) be =>
          match acc with
          | (s, some x) => (s, some x)
          | (s, none) =>
            let oldEnv := s.currentEnv
            let s := { s with currentEnv := be.2 }
            match prev.execBlockFn be.1 s with
            | (s, .ok _) => ({ s with currentEnv := oldEnv }, none)
            | (s, x) => ({ s with currentEnv := oldEnv }, some x))
        (s, none)
    match runKey s (target ++ ":" ++ eventType) with
    | (s, some x) => (s, some x)
    | (s, none) => runKey s ("any:" ++ eventType)

/-- Variable declaration, from `_exec_var_decl`: feature bans, SP costs,
value evaluation, the override / re-declaration ladder (swear is fatal,
sure overrides sure, maybe re-declares with doubt), ghost tracking,
definition, bond detection, and the excited first-call duplication. -/
def execVarDeclStep (prev : Evals) (keyword : String) (name : String) (value : Option Expr) (line : Nat) (s : St) :
    St × XRes :=
    if keyword = "ghost" && s.banned.contains "ghosts" then
      (s, .err "ghosts are banned (no ghosts)" "" "Neutral")
    else if keyword = "dream" && s.banned.contains "time" then
      (s, .err "dream variables are banned (no time)" "" "Neutral")
    else
      let s := varDeclSpPhase keyword name s
      let evalV : St × XRes :=
        match value with
        | some e => prev.evalExpr e s
        | none => (s, .ok .void)
      match evalV with
      | (s, .ok v) =>
        let (s, existing) := s.envGet name
        let overrideCheck : St × Option XRes :=
          match existing with
          | none => (s, none)
          | some (esid, ex) =>
            if ex.keyword = "swear" then
              let s := s.writeBlame ("Attempted to reassign swear variable '" ++ name ++ "'")
              (s, some (.err ("Cannot reassign swear variable '" ++ name ++
                "'! Program crashed.") name "Neutral"))
            else if keyword = "sure" && ex.keyword = "sure" then
              let s := s.sendToAfterlife name ex.value ex.mood ex.scars
              let s := { s with sp := s.sp.overrideSure }
              let s :=
                if !tagEq ex.value v then s.setVarAt esid name fun w => w.addScar
                else s
              (s, none)
            else if keyword = "sure" then
              (s, some (.err ("Cannot reassign '" ++ ex.keyword ++ "' variable '" ++
                name ++ "' with 'sure'.") "" "Neutral"))
            else if keyword = "maybe" && ex.keyword = "maybe" then
              let s := s.setVarAt esid name fun w =>
                let w := { w with doubt := w.doubt + 1 }
                let w := if w.doubt ≥ 5 then { w with isUncertain := true } else w
                { w with previousValue := some w.value, value := v
                         history := w.history ++ [v.copy] }
              (s, some (.ok v))
            else
              (s, some (.err ("Variable '" ++ name ++
                "' already exists and cannot be re-declared with keyword '" ++
                keyword ++ "'.") "" "Neutral"))
        match overrideCheck with
        | (s, some res) => (s, res)
        | (s, none) =>
          let s :=
            if keyword = "ghost" then
              let s := { s with ghostCount := s.ghostCount + 1 }
              if s.ghostCount > 5 then
                { s with output := s.output ++
                    ["[SanityLang] Warning: Your codebase is haunted."] }
              else s
            else s
          let var : Variable :=
            { name := name, value := v, keyword := keyword, declLine := line
              history := [v.copy] }
          let s := s.define name var
          let (newBonds, s) := detectBonds s
          let s := newBonds.foldl
            (fun (s : St) ab =>
              let s := { s with sp := s.sp.bondFormed }
              s.addGraphEdge ab.1 ab.2)
            s
          -- Excited mood on assigning a first-call function result
          let excited : Option String :=
            match value with
            | some (.call cname _) =>
              if s.firstCallResults.contains cname then some cname else none
            | _ => none
          match excited with
          | some cname =>
            let s := s.setMood s.currentEnv name .excited
            let dup : SVal := .list [v.copy, v.copy]
            let s := s.setVarAt s.currentEnv name fun w => { w with value := dup }
            let s := { s with firstCallResults := sdiscard s.firstCallResults cname }
            (s, .ok dup)
          | none => (s, .ok v)
      | (s, x) => (s, x)

/-- Assignment, from `_exec_assignment`: keyword guards (sure / swear /
ghost) before right-hand-side evaluation, hates enforcement, maybe doubt,
the trust gate that silently rejects the write, history, pinky
propagation, fears triggering, scream events and excited duplication. -/
def execAssignmentStep (prev : Evals) (name : String) (e : Expr) (s : St) :
    St × XRes :=
    let (s, r) := s.envGet name
    match r with
    | none => (s, .err ("Variable '" ++ name ++ "' is not defined") "" "Neutral")
    | some (sid, var) =>
      if var.keyword = "sure" then
        (s, .err ("Cannot reassign 'sure' variable '" ++ name ++
          "'. Use override (redeclare with sure).") "" "Neutral")
      else if var.keyword = "swear" then
        let s := s.writeBlame ("Attempted to reassign swear variable '" ++ name ++ "'")
        (s, .err ("Cannot reassign swear variable '" ++ name ++ "'! Program crashed.")
          name "Neutral")
      else if var.keyword = "ghost" then
        (s, .err ("Cannot assign to ghost variable '" ++ name ++ "'") "" "Neutral")
      else
        let oldValue := var.value
        match prev.evalExpr e s with
        | (s, .ok newValue) =>
          match assignHatesCheck name newValue s with
          | (s, some hatedName) =>
            (s, .err ("'" ++ name ++ "' hates '" ++ hatedName ++
              "' — cannot hold the same value (" ++ payloadStr newValue ++ ")") "" "Neutral")
          | (s, none) =>
            let s :=
              if var.keyword = "maybe" then
                s.setVarAt sid name fun w =>
                  let w := { w with doubt := w.doubt + 1 }
                  if w.doubt ≥ 5 then { w with isUncertain := true } else w
              else s
            let trustNow := ((s.varAt sid name).map Variable.trust).getD 0
            if trustNow ≤ 0 then (s, .ok oldValue)
            else
              let s := s.setVarAt sid name fun w =>
                { w with previousValue := some oldValue, value := newValue
                         history := w.history ++ [newValue.copy] }
              let s :=
                match var.pinkySource with
                | none => s
                | some src =>
                  let (s, r2) := s.envGet src
                  match r2 with
                  | some (ssid, _) =>
                    s.setVarAt ssid src fun w => { w with value := newValue.copy }
                  | none => s
              -- Fears: assigning this variable frightens everything fearing it
              let s := s.rel.fears.foldl
                (fun (s : St) fe =>
                  if fe.2.contains name then
                    let (s, r2) := s.envGet fe.1
                    match r2 with
                    | some (fsid, _) =>
                      s.setVarAt fsid fe.1 fun w => { w with mood := .afraid }
                    | none => s
                  else s)
                s
              let screamRes : St × Option XRes :=
                if var.keyword = "scream" then
                  match prev.fireEvent name "changes" s with
                  | (s, some x) => (s, some x)
                  | (s, none) => (s, none)
                else (s, none)
              match screamRes with
              | (s, some x) => (s, x)
              | (s, none) =>
                let excited : Option String :=
                  match e with
                  | .call cname _ =>
                    if s.firstCallResults.contains cname then some cname else none
                  | _ => none
                match excited with
                | some cname =>
                  let s := s.setMood sid name .excited
                  let dup : SVal := .list [newValue.copy, newValue.copy]
                  let s := s.setVarAt sid name fun w => { w with value := dup }
                  let s := { s with firstCallResults := sdiscard s.firstCallResults cname }
                  (s, .ok dup)
                | none => (s, .ok newValue)
        | (s, x) => (s, x)

/-- Print statement, from `_exec_print`: renders, records the output line,
and marks a printed variable Observed. -/
def execPrintStep (prev : Evals) (e : Expr) (s : St) :
    St × XRes :=
    match prev.evalExpr e s with
    | (s, .ok v) =>
      let s := { s with output := s.output ++ [svalStr v] }
      let s :=
        match e with
        | .varAccess n =>
          let (s, r) := s.envGet n
          match r with
          | some (sid, _) => s.setVarAt sid n fun w => { w with observed := true }
          | none => s
        | _ => s
      (s, .ok v)
    | (s, x) => (s, x)

/-- Conditional, from `_exec_if`: insanity can invert the branch decision
by a 10 percent draw; but-clauses and the actually block follow. -/
def execIfStep (prev : Evals) (cond : Expr) (body : List Stmt) (buts : List (Expr × List Stmt)) (actuallyBlk : Option (List Stmt)) (s : St) :
    St × XRes :=
    match prev.evalExpr cond s with
    | (s, .ok condV) =>
      let (shouldInvert, s) :=
        if s.sp.insanityMode then s.drawBool else (false, s)
      if isTruthy condV ≠ shouldInvert then prev.execBlockFn body s
      else prev.execIfButs buts actuallyBlk shouldInvert s
    | (s, x) => (s, x)

/-- The but-clause scan of `_exec_if`. -/
def execIfButsStep (prev : Evals) (buts : List (Expr × List Stmt)) (actuallyBlk : Option (List Stmt)) (shouldInvert : Bool) (s : St) :
    St × XRes :=
    match buts with
    | [] =>
      match actuallyBlk with
      | some blk => prev.execBlockFn blk s
      | none => (s, .ok .void)
    | (bc, bbody) :: rest =>
      match prev.evalExpr bc s with
      | (s, .ok bcond) =>
        if isTruthy bcond ≠ shouldInvert then prev.execBlockFn bbody s
        else prev.execIfButs rest actuallyBlk shouldInvert s
      | (s, x) => (s, x)

/-- Counted loop, from `_exec_pls`: numeric count truncation, start index
from the SP threshold, downscaling by an enclosing conditional loop's quit
probability, and per-iteration scopes binding the induction variable. -/
def execPlsStep (prev : Evals) (count : Expr) (counterName : Option String) (body : List Stmt) (line : Nat) (s : St) :
    St × XRes :=
    match prev.evalExpr count s with
    | (s, .ok countV) =>
      match countV with
      | .num q =>
        let count : Int := ratTrunc q
        let start : Int := if s.sp.spv < 50 then 0 else 1
        let count : Int :=
          if s.ughQuitProb > 0 then
            let scaled := ratTrunc ((count : Rat) * (1 - s.ughQuitProb))
            if scaled < 0 then 0 else scaled
          else count
        let iters := (count.toNat : Nat)
        prev.execPlsIter iters start counterName body line s .void
      | _ => (s, .err "pls loop count must be a Number" "" "Neutral")
    | (s, x) => (s, x)

/-- The iteration loop of `_exec_pls`, carrying the running result. -/
def execPlsIterStep (prev : Evals) (remaining : Nat) (i : Int) (counterName : Option String) (body : List Stmt) (line : Nat) (s : St) (result : SVal) :
    St × XRes :=
    match remaining with
    | 0 => (s, .ok result)
    | remaining + 1 =>
      let (actualI, s) :=
        if s.sp.insanityMode then
          let (d, s) := s.drawInt
          (i + (d.emod 3 - 1), s)
        else (i, s)
      let (fid, s) := s.pushScope s.currentEnv
      let oldEnv := s.currentEnv
      let s := { s with currentEnv := fid }
      let s :=
        match counterName with
        | some cn =>
          s.define cn
            { name := cn, value := .num (actualI : Rat), keyword := "sure"
              declLine := line }
        | none => s
      let (s, last, sig) := prev.execSeqV body s result
      let s := { s with currentEnv := oldEnv }
      match sig with
      | none => prev.execPlsIter remaining (i + 1) counterName body line s last
      | some .brk => (s, .ok last)
      | some x => (s, x)

/-- Try/cope/deny, from `_exec_try`: only SanityErrors are caught; control
signals pass through.  Cope binds the error record in a fresh scope; deny
logs, docks the blamed variable's trust, and swallows. -/
def execTryStep (prev : Evals) (tryBlk : List Stmt) (copeParam : Option String) (copeBlk : Option (List Stmt)) (denyBlk : Option (List Stmt)) (line : Nat) (s : St) :
    St × XRes :=
    match prev.execBlockFn tryBlk s with
    | (s, .ok v) => (s, .ok v)
    | (s, .err msg blame mood) =>
      let errorBlob : SVal := .blob
        [("message", .word msg), ("source", .word ""),
         ("blame", .word blame), ("mood", .word mood)]
      match copeBlk with
      | some cb =>
        let (fid, s) := s.pushScope s.currentEnv
        let s :=
          match copeParam with
          | some p =>
            let oldEnv := s.currentEnv
            let s := { s with currentEnv := fid }
            let s := s.define p
              { name := p, value := errorBlob, keyword := "sure", declLine := line }
            { s with currentEnv := oldEnv }
          | none => { s with sp := s.sp.uselessCope }
        let oldEnv := s.currentEnv
        let s := { s with currentEnv := fid }
        let (s, r) := prev.execBlockFn cb s
        ({ s with currentEnv := oldEnv }, r)
      | none =>
        match denyBlk with
        | some _ =>
          let s := s.writeBlame msg
          let s :=
            if blame ≠ "" then
              let (s, r2) := s.envGet blame
              match r2 with
              | some (bsid, _) => s.setVarAt bsid blame fun w => w.loseTrust 10
              | none => s
            else s
          (s, .ok .void)
        | none => (s, .ok .void)
    | (s, x) => (s, x)

/-- Yolo block, from `_exec_yolo`: every raised signal — SanityErrors but
also, through the broad `except (SanityError, Exception)` clause, break and
return signals — is swallowed and counted; ten swallows curse the block's
variables. -/
def execYoloStep (prev : Evals) (body : List Stmt) (s : St) :
    St × XRes :=
    let (fid, s) := s.pushScope s.currentEnv
    let oldEnv := s.currentEnv
    let s := { s with currentEnv := fid }
    let (s, savedCount) := prev.execYoloIter body s 0
    let s := { s with currentEnv := oldEnv }
    let s :=
      if savedCount ≥ 10 then
        match s.getScope fid with
        | none => s
        | some sc =>
          sc.vars.foldl (fun (s : St) kv => s.setVarAt fid kv.1 fun w => w.addTrait .cursed) s
      else s
    (s, .ok .void)

/-- The statement loop of `_exec_yolo`, counting swallowed signals. -/
def execYoloIterStep (prev : Evals) (body : List Stmt) (s : St) (saved : Nat) :
    St × Nat :=
    match body with
    | [] => (s, saved)
    | stmt :: rest =>
      match prev.execStmt stmt s with
      | (s, .ok _) => prev.execYoloIter rest s saved
      | (s, _) =>
        let s := { s with sp := s.sp.yoloSwallow }
        prev.execYoloIter rest s (saved + 1)

/-- Function declaration, from `_exec_func_decl`: registers the function
with its defining environment; a must function is invoked immediately. -/
def execFuncDeclStep (prev : Evals) (keyword : String) (fname : String) (params : List String) (body : List Stmt) (cond : Option Expr) (line : Nat) (s : St) :
    St × XRes :=
    let fd : FuncData :=
      { keyword := keyword, fname := fname, params := params, body := body
        cond := cond, line := line }
    let s := { s with functions := aset s.functions fname (fd, s.currentEnv) }
    if keyword = "must" then
      match prev.callFunction fname [] fd s.currentEnv s with
      | (s, .ok _) => (s, .ok .void)
      | (s, x) => (s, x)
    else (s, .ok .void)

/-- Statement dispatch, from `Interpreter._dispatch`. -/
def dispatchStep (prev : Evals) (stmt : Stmt) (s : St) :
    St × XRes :=
    match stmt with
    | .varDecl _ line kw name value => prev.execVarDecl kw name value line s
    | .assign _ _ name value => prev.execAssignment name value s
    | .printS _ _ e => prev.execPrint e s
    | .exprStmt _ _ e => prev.evalExpr e s
    | .ifStmt _ _ cond body buts act => prev.execIf cond body buts act s
    | .plsLoop _ line count cn body => prev.execPls count cn body line s
    | .enough _ _ => (s, .brk)
    | .funcDecl _ line kw fname params body cond =>
      prev.execFuncDecl kw fname params body cond line s
    | .retS terms _ value =>
      match value with
      | some e =>
        match prev.evalExpr e s with
        | (s, .ok v) => (s, .ret v terms)
        | (s, x) => (s, x)
      | none => (s, .ret .void terms)
    | .tryCope _ line tryBlk copeParam copeBlk denyBlk =>
      prev.execTry tryBlk copeParam copeBlk denyBlk line s
    | .yolo _ _ body => prev.execYolo body s
    | .cry _ _ message => execCry message s
    | .deleteS _ _ name => execDelete name s

/-- Full statement execution, from `Interpreter.execute`: bookkeeping
prefix, dispatch, mirror synchronisation, and terminator effects; a raised
signal skips the post-dispatch steps exactly as a Python exception would. -/
def execStmtStep (prev : Evals) (stmt : Stmt) (s : St) :
    St × XRes :=
    let s := presteps stmt s
    match prev.dispatch stmt s with
    | (s, .ok v) =>
      let s := mirrorSync s
      if stmt.terms.isEmpty then (s, .ok v)
      else
        let (s, v) := applyTerminators v stmt.terms s
        (s, .ok v)
    | (s, x) => (s, x)

/-- Sequential execution of a statement list (the plain `for stmt in ...`
loops of the interpreter), carrying the running result; a raised signal
stops the loop. -/
def execSeqVStep (prev : Evals) (stmts : List Stmt) (s : St) (cur : SVal) :
    St × SVal × Option XRes :=
    match stmts with
    | [] => (s, cur, none)
    | stmt :: rest =>
      match prev.execStmt stmt s with
      | (s, .ok v) => prev.execSeqV rest s v
      | (s, x) => (s, cur, some x)

/-- Block execution, from `_exec_block`: fresh scope, enter-scope SP bonus,
sequential execution, and the wasted-scope check on exit (run in a
`finally`, so also on a propagating signal). -/
def execBlockFnStep (prev : Evals) (stmts : List Stmt) (s : St) :
    St × XRes :=
    let (fid, s) := s.pushScope s.currentEnv
    let s := { s with sp := s.sp.enterScope }
    let oldEnv := s.currentEnv
    let s := { s with currentEnv := fid }
    let (s, last, sig) := prev.execSeqV stmts s .void
    let s :=
      match s.getScope fid with
      | some sc =>
        if sc.usedVars.isEmpty && !sc.vars.isEmpty then
          { s with sp := s.sp.wastedScope }
        else s
      | none => s
    let s := { s with currentEnv := oldEnv }
    match sig with
    | none => (s, .ok last)
    | some x => (s, x)

/-- One fuel step of the evaluator bundle. -/
def evalsStep (prev : Evals) : Evals where
  evalExpr := evalExprStep prev
  evalArgs := evalArgsStep prev
  evalBinary := evalBinaryStep prev
  evalComparison := evalComparisonStep prev
  evalCall := evalCallStep prev
  callFunction := callFunctionStep prev
  fireEvent := fireEventStep prev
  execVarDecl := execVarDeclStep prev
  execAssignment := execAssignmentStep prev
  execPrint := execPrintStep prev
  execIf := execIfStep prev
  execIfButs := execIfButsStep prev
  execPls := execPlsStep prev
  execPlsIter := execPlsIterStep prev
  execTry := execTryStep prev
  execYolo := execYoloStep prev
  execYoloIter := execYoloIterStep prev
  execFuncDecl := execFuncDeclStep prev
  dispatch := dispatchStep prev
  execStmt := execStmtStep prev
  execSeqV := execSeqVStep prev
  execBlockFn := execBlockFnStep prev

/-- Fuel-indexed evaluator bundle, built with a bare recursor so that
concrete executions reduce step by step. -/
def evals : Nat → Evals :=
  Nat.rec (motive := fun _ => Evals) evalsOut (fun _ prev => evalsStep prev)

/-- Fuel-indexed wrapper projecting `evalExprStep` from the bundle. -/
def evalExpr (fuel : Nat) (e : Expr) (s : St) :
    St × XRes :=
  (evals fuel).evalExpr e s

/-- Fuel-indexed wrapper projecting `evalArgsStep` from the bundle. -/
def evalArgs (fuel : Nat) (es : List Expr) (s : St) :
    St × (List SVal ⊕ XRes) :=
  (evals fuel).evalArgs es s

/-- Fuel-indexed wrapper projecting `evalBinaryStep` from the bundle. -/
def evalBinary (fuel : Nat) (l : Expr) (op : String) (r : Expr) (lsp : Nat) (rsp : Nat) (s : St) :
    St × XRes :=
  (evals fuel).evalBinary l op r lsp rsp s

/-- Fuel-indexed wrapper projecting `evalComparisonStep` from the bundle. -/
def evalComparison (fuel : Nat) (l : Expr) (op : String) (r : Expr) (eqc : Nat) (s : St) :
    St × XRes :=
  (evals fuel).evalComparison l op r eqc s

/-- Fuel-indexed wrapper projecting `evalCallStep` from the bundle. -/
def evalCall (fuel : Nat) (callee : String) (args : List Expr) (s : St) :
    St × XRes :=
  (evals fuel).evalCall callee args s

/-- Fuel-indexed wrapper projecting `callFunctionStep` from the bundle. -/
def callFunction (fuel : Nat) (name : String) (args : List SVal) (fd : FuncData) (closureEnv : Nat) (s : St) :
    St × XRes :=
  (evals fuel).callFunction name args fd closureEnv s

/-- Fuel-indexed wrapper projecting `fireEventStep` from the bundle. -/
def fireEvent (fuel : Nat) (target : String) (eventType : String) (s : St) :
    St × Option XRes :=
  (evals fuel).fireEvent target eventType s

/-- Fuel-indexed wrapper projecting `execVarDeclStep` from the bundle. -/
def execVarDecl (fuel : Nat) (keyword : String) (name : String) (value : Option Expr) (line : Nat) (s : St) :
    St × XRes :=
  (evals fuel).execVarDecl keyword name value line s

/-- Fuel-indexed wrapper projecting `execAssignmentStep` from the bundle. -/
def execAssignment (fuel : Nat) (name : String) (e : Expr) (s : St) :
    St × XRes :=
  (evals fuel).execAssignment name e s

/-- Fuel-indexed wrapper projecting `execPrintStep` from the bundle. -/
def execPrint (fuel : Nat) (e : Expr) (s : St) :
    St × XRes :=
  (evals fuel).execPrint e s

/-- Fuel-indexed wrapper projecting `execIfStep` from the bundle. -/
def execIf (fuel : Nat) (cond : Expr) (body : List Stmt) (buts : List (Expr × List Stmt)) (actuallyBlk : Option (List Stmt)) (s : St) :
    St × XRes :=
  (evals fuel).execIf cond body buts actuallyBlk s

/-- Fuel-indexed wrapper projecting `execIfButsStep` from the bundle. -/
def execIfButs (fuel : Nat) (buts : List (Expr × List Stmt)) (actuallyBlk : Option (List Stmt)) (shouldInvert : Bool) (s : St) :
    St × XRes :=
  (evals fuel).execIfButs buts actuallyBlk shouldInvert s

/-- Fuel-indexed wrapper projecting `execPlsStep` from the bundle. -/
def execPls (fuel : Nat) (count : Expr) (counterName : Option String) (body : List Stmt) (line : Nat) (s : St) :
    St × XRes :=
  (evals fuel).execPls count counterName body line s

/-- Fuel-indexed wrapper projecting `execPlsIterStep` from the bundle. -/
def execPlsIter (fuel : Nat) (remaining : Nat) (i : Int) (counterName : Option String) (body : List Stmt) (line : Nat) (s : St) (result : SVal) :
    St × XRes :=
  (evals fuel).execPlsIter remaining i counterName body line s result

/-- Fuel-indexed wrapper projecting `execTryStep` from the bundle. -/
def execTry (fuel : Nat) (tryBlk : List Stmt) (copeParam : Option String) (copeBlk : Option (List Stmt)) (denyBlk : Option (List Stmt)) (line : Nat) (s : St) :
    St × XRes :=
  (evals fuel).execTry tryBlk copeParam copeBlk denyBlk line s

/-- Fuel-indexed wrapper projecting `execYoloStep` from the bundle. -/
def execYolo (fuel : Nat) (body : List Stmt) (s : St) :
    St × XRes :=
  (evals fuel).execYolo body s

/-- Fuel-indexed wrapper projecting `execYoloIterStep` from the bundle. -/
def execYoloIter (fuel : Nat) (body : List Stmt) (s : St) (saved : Nat) :
    St × Nat :=
  (evals fuel).execYoloIter body s saved

/-- Fuel-indexed wrapper projecting `execFuncDeclStep` from the bundle. -/
def execFuncDecl (fuel : Nat) (keyword : String) (fname : String) (params : List String) (body : List Stmt) (cond : Option Expr) (line : Nat) (s : St) :
    St × XRes :=
  (evals fuel).execFuncDecl keyword fname params body cond line s

/-- Fuel-indexed wrapper projecting `dispatchStep` from the bundle. -/
def dispatch (fuel : Nat) (stmt : Stmt) (s : St) :
    St × XRes :=
  (evals fuel).dispatch stmt s

/-- Fuel-indexed wrapper projecting `execStmtStep` from the bundle. -/
def execStmt (fuel : Nat) (stmt : Stmt) (s : St) :
    St × XRes :=
  (evals fuel).execStmt stmt s

/-- Fuel-indexed wrapper projecting `execSeqVStep` from the bundle. -/
def execSeqV (fuel : Nat) (stmts : List Stmt) (s : St) (cur : SVal) :
    St × SVal × Option XRes :=
  (evals fuel).execSeqV stmts s cur

/-- Fuel-indexed wrapper projecting `execBlockFnStep` from the bundle. -/
def execBlockFn (fuel : Nat) (stmts : List Stmt) (s : St) :
    St × XRes :=
  (evals fuel).execBlockFn stmts s


/-- Modelled from the spec: `Interpreter._populate_args_and_flags` is called
by `execute_program` but its definition is not part of the published source
tree; per the spec it installs the CLI-level argument and flag bindings,
which no embedded construct reads, so the model treats it as leaving the
claim-relevant state unchanged. -/
def populateArgsAndFlags (s : St) : St := s

/-- Program execution, from `Interpreter.execute_program`: switches the SP
tracker to runtime costs, auto-runs must functions, loads dreams (no dream
path is configured in the model), runs prologue, climax and the main body
in order, then the epilogue inside its own catch-all, then the end-of-run
checks.  A signal raised before the epilogue propagates immediately. -/
def execProgram (fuel : Nat) (p : Program) (s : St) : St × XRes :=
  let s := { s with sp := { s.sp with isRuntime := true } }
  let s := populateArgsAndFlags s
  -- Auto-run must functions registered so far
  let mustRun : St × Option XRes := s.functions.foldl
    (fun (acc : St × Option XRes) f =>
      match acc with
      | (s, some x) => (s, some x)
      | (s, none) =>
        if f.2.1.keyword = "must" then
          match callFunction fuel f.1 [] f.2.1 f.2.2 s with
          | (s, .ok _) => (s, none)
          | (s, x) => (s, some x)
        else (s, none))
    (s, none)
  match mustRun with
  | (s, some x) => (s, x)
  | (s, none) =>
    -- _load_dreams: no dream path in the model, immediate return
    let prologueRun : St × Option XRes :=
      match p.prologue with
      | none => (s, none)
      | some blk =>
        match execBlockFn fuel blk s with
        | (s, .ok _) => (s, none)
        | (s, x) => (s, some x)
    match prologueRun with
    | (s, some x) => (s, x)
    | (s, none) =>
      let climaxRun : St × Option XRes :=
        match p.climax with
        | none => (s, none)
        | some blk =>
          match execBlockFn fuel blk s with
          | (s, .ok _) => (s, none)
          | (s, x) => (s, some x)
      match climaxRun with
      | (s, some x) => (s, x)
      | (s, none) =>
        let (s, last, sig) := execSeqV fuel p.body s .void
        match sig with
        | some x => (s, x)
        | none =>
          -- Epilogue: its own signals are discarded
          let s :=
            match p.epilogue with
            | none => s
            | some blk => (execBlockFn fuel blk s).1
          -- _save_dreams: no dream path in the model
          let s := s.foreshadowed.foldl
            (fun (s : St) nf =>
              if nf.2 then s else { s with sp := s.sp.unfulfilledForeshadow })
            s
          let s := s.functions.foldl
            (fun (s : St) f =>
              if f.2.1.keyword = "should" && (alookup s.callCounts f.1).getD 0 = 0 then
                { s with sp := s.sp.shouldNotCalled }
              else s)
            s
          (s, .ok last)

/-! Concrete programs and states exercised by the claim theorems. -/

/-- A fresh interpreter state with a given starting SP (the `Interpreter`
constructor with default flags and the chosen initial tracker value). -/
def initStSp (spv : Int) : St := { sp := { spv := spv } }

/-- Counted-loop probe: `pls 5 as i { print(i). }`. -/
def plsProbeStmt : Stmt :=
  .plsLoop ["."] 1 (.numLit 5) (some "i") [.printS ["."] 2 (.varAccess "i")]

/-- Body of the memoized Fibonacci function:
`if n <= 1 { return n } return fib(n - 1) + fib(n - 2)`. -/
def fibBody : List Stmt :=
  [ .ifStmt ["."] 2 (.comparison (.varAccess "n") "<=" (.numLit 1) 2)
      [.retS ["."] 3 (some (.varAccess "n"))] [] none,
    .retS ["."] 4 (some (.binary
      (.call "fib" [.binary (.varAccess "n") "-" (.numLit 1) 0 0])
      "+"
      (.call "fib" [.binary (.varAccess "n") "-" (.numLit 2) 0 0]) 0 0)) ]

/-- Program: `did fib(n) { ... }  fib(10).`. -/
def progFib : Program :=
  { body := [
      .funcDecl ["."] 1 "did" "fib" ["n"] fibBody none,
      .exprStmt ["."] 6 (.call "fib" [.numLit 10]) ] }

/-- Program: a memoized function with a print side effect, called twice with
the same argument. -/
def progMemoTwice : Program :=
  { body := [
      .funcDecl ["."] 1 "did" "greet" ["x"]
        [ .printS ["."] 2 (.strLit "hi"),
          .retS ["."] 3 (some (.numLit 7)) ] none,
      .exprStmt ["."] 5 (.call "greet" [.numLit 1]),
      .exprStmt ["."] 6 (.call "greet" [.numLit 1]) ] }

/-- Program whose main body crashes (`cry "boom".`) with an epilogue that
would print `cleanup`. -/
def progCrashEpilogue : Program :=
  { body := [.cry ["."] 1 "boom"],
    epilogue := some [.printS ["."] 3 (.strLit "cleanup")] }

/-- Program with a clean main body and the same epilogue. -/
def progCleanEpilogue : Program :=
  { body := [.printS ["."] 1 (.strLit "main")],
    epilogue := some [.printS ["."] 3 (.strLit "cleanup")] }

/-- Program: `pls 3 as i { yolo { enough. print("after"). } }`. -/
def progYoloBreak : Program :=
  { body := [ .plsLoop ["."] 1 (.numLit 3) (some "i")
      [ .yolo ["."] 2 [ .enough ["."] 3, .printS ["."] 4 (.strLit "after") ] ] ] }

/-- A try/cope statement whose try block raises a break signal. -/
def tryBreakStmt : Stmt :=
  .tryCope ["."] 1 [.enough ["."] 2] none (some [.printS ["."] 3 (.strLit "coped")]) none

/-- State with a swear variable `x = 40` that envies `z = 50` (reachable by
`swear x = 40. sure z = 50. x envies z.`). -/
def stSwearEnvy : St :=
  { scopes := [(0, { vars :=
      [("x", { name := "x", value := .num 40, keyword := "swear" }),
       ("z", { name := "z", value := .num 50, keyword := "sure" })] })],
    rel := { envies := [("x", ["z"])] } }

/-- State with an Afraid variable `x = 42` (reachable, e.g. through a fears
trigger or a blame). -/
def stAfraidVar : St :=
  { scopes := [(0, { vars :=
      [("x", { name := "x", value := .num 42, keyword := "maybe",
               mood := .afraid })] })] }

/-- State with a zero-trust variable `a` that hates `b = 5` (trust reaches 0
through repeated blames or deny blocks). -/
def stTrustZeroHates : St :=
  { scopes := [(0, { vars :=
      [("a", { name := "a", value := .num 1, keyword := "maybe", trust := 0 }),
       ("b", { name := "b", value := .num 5, keyword := "sure" })] })],
    rel := { hates := [("a", ["b"]), ("b", ["a"])] } }

/-- State with two plain variables `a = 1`, `b = 2` for the mirror probe. -/
def stMirrorPair : St :=
  { scopes := [(0, { vars :=
      [("a", { name := "a", value := .num 1, keyword := "maybe" }),
       ("b", { name := "b", value := .num 2, keyword := "maybe" })] })] }

/-- The declaration statement `a mirrors b`. -/
def mirrorsDeclStmt : Stmt :=
  .exprStmt [] 1 (.emotional (.varAccess "a") "mirrors" (.varAccess "b"))

/-- A whatever variable holding 100 for the mutation-schedule probe. -/
def whateverProbeVar : Variable :=
  { name := "w", value := .num 100, keyword := "whatever" }

/-- Single-variable state for the delete / seance probe: `x` holds `v` with
mood `m` (keyword maybe). -/
def stVar (v : SVal) (m : Mood) : St :=
  { scopes := [(0, { vars :=
      [("x", { name := "x", value := v, keyword := "maybe", mood := m })] })] }

/-- Single-variable state with a ghost `x = 42` that is Afraid, for the
live-ghost branch of the seance probe. -/
def stGhostAfraid : St :=
  { scopes := [(0, { vars :=
      [("x", { name := "x", value := .num 42, keyword := "ghost",
               mood := .afraid })] })] }

/-- State after executing `a mirrors b` on the mirror pair. -/
def mirrorSt1 : St := (execStmt 20 mirrorsDeclStmt stMirrorPair).1

/-- State after one further (no-op) statement. -/
def mirrorSt2 : St := (execStmt 20 (.exprStmt ["."] 2 (.numLit 0)) mirrorSt1).1

/-- State after a third statement assigning `b = 99`. -/
def mirrorSt3 : St := (execStmt 20 (.assign ["."] 3 "b" (.numLit 99)) mirrorSt2).1

/-- State after a fourth (no-op) statement. -/
def mirrorSt4 : St := (execStmt 20 (.exprStmt ["."] 4 (.numLit 0)) mirrorSt3).1

/-- A read access never touches the stored value, only bookkeeping fields. -/
theorem recordAccess_value (v : Variable) (s : Nat) :
    (v.recordAccess s).value = v.value := by
  simp only [Variable.recordAccess, Variable.addTrait]
  split_ifs <;> rfl

/-- Iterating read accesses therefore never touches the stored value. -/
theorem recordAccess_iterate_value (v : Variable) (n : Nat) :
    ((fun v : Variable => v.recordAccess 1)^[n] v).value = v.value := by
  induction n generalizing v with
  | zero => rfl
  | succ m ih =>
    rw [Function.iterate_succ_apply]
    rw [ih (v.recordAccess 1)]
    exact recordAccess_value v 1

/-! Auxiliary lemmas: value copies are identities, fold invariants, and
invariance of name resolution under bookkeeping-only state updates. -/

mutual

/-- Copying a value is the identity in the value-based model. -/
theorem SVal.copy_eq : ∀ v : SVal, v.copy = v
  | .num _ => rfl
  | .word _ => rfl
  | .yep => rfl
  | .nope => rfl
  | .dunno => rfl
  | .void => rfl
  | .list xs => by rw [SVal.copy, SVal.copyList_eq xs]
  | .blob kvs => by rw [SVal.copy, SVal.copyBlob_eq kvs]

/-- Copying a value list is the identity. -/
theorem SVal.copyList_eq : ∀ xs : List SVal, SVal.copyList xs = xs
  | [] => rfl
  | x :: xs => by rw [SVal.copyList, SVal.copy_eq x, SVal.copyList_eq xs]

/-- Copying a record's pairs is the identity. -/
theorem SVal.copyBlob_eq : ∀ kvs : List (String × SVal), SVal.copyBlob kvs = kvs
  | [] => rfl
  | (k, v) :: kvs => by rw [SVal.copyBlob, SVal.copy_eq v, SVal.copyBlob_eq kvs]

end

/-- A property preserved by every fold step is preserved by the fold. -/
theorem foldl_pres {α β : Type} (step : β → α → β) (P : β → Prop)
    (h : ∀ b a, P b → P (step b a)) :
    ∀ (l : List α) (b : β), P b → P (l.foldl step b)
  | [], _, hb => hb
  | a :: l, b, hb => foldl_pres step P h l (step b a) (h b a hb)

/-- Dict lookup after an in-place update at another key. -/
theorem alookup_aupdate_ne {α : Type} (m : List (String × α)) (key k : String)
    (f : α → α) (h : k ≠ key) : alookup (aupdate m key f) k = alookup m k := by
  induction m with
  | nil => rfl
  | cons p m ih =>
    obtain ⟨k1, v1⟩ := p
    by_cases hp : k1 = key
    · subst hp
      have hne : k1 ≠ k := fun hc => h (hc ▸ rfl)
      simp [aupdate, alookup, hne, ih]
    · by_cases hk : k1 = k
      · simp [aupdate, alookup, hp, hk, h]
      · simp [aupdate, alookup, hp, hk, ih]

/-- Dict lookup after an in-place update at the same key. -/
theorem alookup_aupdate_eq {α : Type} (m : List (String × α)) (key : String)
    (f : α → α) : alookup (aupdate m key f) key = (alookup m key).map f := by
  induction m with
  | nil => rfl
  | cons p m ih =>
    obtain ⟨k1, v1⟩ := p
    by_cases hp : k1 = key
    · simp [aupdate, alookup, hp]
    · simp [aupdate, alookup, hp, ih]

/-- Dict lookup after a store at another key. -/
theorem alookup_aset_ne {α : Type} (m : List (String × α)) (key k : String)
    (v : α) (h : k ≠ key) : alookup (aset m key v) k = alookup m k := by
  induction m with
  | nil => simp [aset, alookup, Ne.symm h]
  | cons p m ih =>
    obtain ⟨k1, v1⟩ := p
    by_cases hp : k1 = key
    · subst hp
      have hne : k1 ≠ k := fun hc => h (hc ▸ rfl)
      simp [aset, alookup, hne]
    · by_cases hk : k1 = k
      · simp [aset, alookup, hp, hk, h]
      · simp [aset, alookup, hp, hk, ih]

/-- Dict lookup after a store at the same key. -/
theorem alookup_aset_eq {α : Type} (m : List (String × α)) (key : String)
    (v : α) : alookup (aset m key v) key = some v := by
  induction m with
  | nil => simp [aset, alookup]
  | cons p m ih =>
    obtain ⟨k1, v1⟩ := p
    by_cases hp : k1 = key
    · simp [aset, alookup, hp]
    · simp [aset, alookup, hp, ih]

/-- Replacement inside a scope list, read back at the written id. -/
theorem find_replace_self (l : List (Nat × Scope)) (sid : Nat) (sc : Scope) :
    ((replaceScope l sid sc).find? fun p => p.1 = sid)
      = (l.find? fun p => p.1 = sid).map fun p => (p.1, sc) := by
  induction l with
  | nil => rfl
  | cons p l ih =>
    obtain ⟨i, scp⟩ := p
    by_cases hp : i = sid
    · simp [replaceScope, List.find?, hp]
    · simp [replaceScope, List.find?, hp, ih]

/-- Replacement inside a scope list, read back at another id. -/
theorem find_replace_other (l : List (Nat × Scope)) (sid sid2 : Nat) (sc : Scope)
    (h : sid2 ≠ sid) :
    ((replaceScope l sid sc).find? fun p => p.1 = sid2)
      = l.find? fun p => p.1 = sid2 := by
  induction l with
  | nil => rfl
  | cons p l ih =>
    obtain ⟨i, scp⟩ := p
    by_cases hp : i = sid
    · have hne : ¬ i = sid2 := fun hc => h ((hc ▸ hp : sid2 = sid))
      have hne2 : ¬ sid = sid2 := fun hc => h hc.symm
      simp [replaceScope, List.find?, hp, hne, hne2, ih]
    · by_cases hq : i = sid2
      · simp [replaceScope, List.find?, hp, hq, h]
      · simp [replaceScope, List.find?, hp, hq, ih]

/-- The scope-replacement list keeps its length. -/
theorem replaceScope_length (l : List (Nat × Scope)) (sid : Nat) (sc : Scope) :
    (replaceScope l sid sc).length = l.length := by
  induction l with
  | nil => rfl
  | cons p l ih =>
    obtain ⟨i, scp⟩ := p
    by_cases hp : i = sid <;> simp [replaceScope, hp, ih]

/-- Scope store length is unchanged by a scope write. -/
theorem setScope_scopes_length (s : St) (sid : Nat) (sc : Scope) :
    (s.setScope sid sc).scopes.length = s.scopes.length := by
  show (replaceScope s.scopes sid sc).length = s.scopes.length
  exact replaceScope_length s.scopes sid sc

/-- Reading the written slot of a scope store. -/
theorem getScope_setScope_eq (s : St) (sid : Nat) (sc : Scope) :
    (s.setScope sid sc).getScope sid = (s.getScope sid).map fun _ => sc := by
  show ((replaceScope s.scopes sid sc).find? fun p => p.1 = sid).map Prod.snd
      = ((s.scopes.find? fun p => p.1 = sid).map Prod.snd).map fun _ => sc
  rw [find_replace_self]
  cases s.scopes.find? fun p => p.1 = sid <;> rfl

/-- Reading an untouched slot of a scope store. -/
theorem getScope_setScope_ne (s : St) (sid sid2 : Nat) (sc : Scope)
    (h : sid2 ≠ sid) : (s.setScope sid sc).getScope sid2 = s.getScope sid2 := by
  show ((replaceScope s.scopes sid sc).find? fun p => p.1 = sid2).map Prod.snd = _
  rw [find_replace_other _ _ _ _ h]
  rfl

/-- The name-resolution view of one scope: the binding of `n` and the parent
link, which are all `resolveFrom` consumes. -/
def lookView (s : St) (sid : Nat) (n : String) :
    Option (Option Variable × Option Nat) :=
  (s.getScope sid).map fun sc => (alookup sc.vars n, sc.parent)

/-- Resolution only depends on the per-scope lookup views. -/
theorem resolveFrom_congr (s s' : St) (n : String)
    (h : ∀ sid, lookView s' sid n = lookView s sid n) :
    ∀ (fuel sid : Nat), s'.resolveFrom fuel sid n = s.resolveFrom fuel sid n := by
  intro fuel
  induction fuel with
  | zero => intro _; rfl
  | succ fuel ih =>
    intro sid
    have hsid := h sid
    unfold lookView at hsid
    show (match s'.getScope sid with
          | none => none
          | some sc =>
            match alookup sc.vars n with
            | some v => some (sid, v)
            | none =>
              match sc.parent with
              | some p => s'.resolveFrom fuel p n
              | none => none)
        = (match s.getScope sid with
          | none => none
          | some sc =>
            match alookup sc.vars n with
            | some v => some (sid, v)
            | none =>
              match sc.parent with
              | some p => s.resolveFrom fuel p n
              | none => none)
    cases hs : s.getScope sid with
    | none =>
      cases hs2 : s'.getScope sid with
      | none => rfl
      | some sc2 => rw [hs, hs2] at hsid; simp at hsid
    | some sc =>
      cases hs2 : s'.getScope sid with
      | none => rw [hs, hs2] at hsid; simp at hsid
      | some sc2 =>
        rw [hs, hs2] at hsid
        simp at hsid
        obtain ⟨h1, h2⟩ := hsid
        show (match alookup sc2.vars n with
              | some v => some (sid, v)
              | none =>
                match sc2.parent with
                | some p => s'.resolveFrom fuel p n
                | none => none)
          = (match alookup sc.vars n with
              | some v => some (sid, v)
              | none =>
                match sc.parent with
                | some p => s.resolveFrom fuel p n
                | none => none)
        rw [h1, h2]
        cases alookup sc.vars n with
        | some v => rfl
        | none =>
          cases sc.parent with
          | some p => exact ih p
          | none => rfl

/-- Marking a name used changes no lookup view. -/
theorem lookView_markUsed (s : St) (x n : String) (sid : Nat) :
    lookView (s.markUsed x) sid n = lookView s sid n := by
  unfold St.markUsed
  cases s.resolve x with
  | none => rfl
  | some r =>
    obtain ⟨xsid, xv⟩ := r
    show lookView (match s.getScope xsid with
        | none => s
        | some sc => s.setScope xsid { sc with usedVars := sadd sc.usedVars x }) sid n
      = lookView s sid n
    cases hg : s.getScope xsid with
    | none => rfl
    | some sc =>
      unfold lookView
      by_cases hs : sid = xsid
      · subst hs
        rw [getScope_setScope_eq, hg]
        rfl
      · rw [getScope_setScope_ne _ _ _ _ hs]

/-- Scope count is unchanged by marking a name used. -/
theorem markUsed_scopes_length (s : St) (x : String) :
    (s.markUsed x).scopes.length = s.scopes.length := by
  unfold St.markUsed
  cases s.resolve x with
  | none => rfl
  | some r =>
    obtain ⟨xsid, xv⟩ := r
    show (match s.getScope xsid with
        | none => s
        | some sc => s.setScope xsid
            { sc with usedVars := sadd sc.usedVars x }).scopes.length
      = s.scopes.length
    cases s.getScope xsid with
    | none => rfl
    | some sc => exact setScope_scopes_length ..

/-- Current environment is unchanged by marking a name used. -/
theorem markUsed_currentEnv (s : St) (x : String) :
    (s.markUsed x).currentEnv = s.currentEnv := by
  unfold St.markUsed
  cases s.resolve x with
  | none => rfl
  | some r =>
    obtain ⟨xsid, xv⟩ := r
    show (match s.getScope xsid with
        | none => s
        | some sc => s.setScope xsid
            { sc with usedVars := sadd sc.usedVars x }).currentEnv
      = s.currentEnv
    cases s.getScope xsid with
    | none => rfl
    | some sc => rfl

/-- Resolution is unchanged by marking a name used. -/
theorem resolve_markUsed (s : St) (x n : String) :
    (s.markUsed x).resolve n = s.resolve n := by
  unfold St.resolve
  rw [markUsed_scopes_length, markUsed_currentEnv]
  exact resolveFrom_congr s (s.markUsed x) n (lookView_markUsed s x n) _ _

/-- Per-scope variables are unchanged by marking a name used. -/
theorem varAt_markUsed (s : St) (x : String) (sid : Nat) (n : String) :
    (s.markUsed x).varAt sid n = s.varAt sid n := by
  have h := lookView_markUsed s x n sid
  unfold lookView at h
  unfold St.varAt
  cases hg : s.getScope sid with
  | none =>
    rw [hg] at h
    cases hg2 : (s.markUsed x).getScope sid with
    | none => rfl
    | some sc2 => rw [hg2] at h; simp at h
  | some sc =>
    rw [hg] at h
    cases hg2 : (s.markUsed x).getScope sid with
    | none => rw [hg2] at h; simp at h
    | some sc2 =>
      rw [hg2] at h
      simp at h
      show alookup sc2.vars n = alookup sc.vars n
      exact h.1

/-- Scope count is unchanged by a variable write. -/
theorem setVarAt_scopes_length (s : St) (sid : Nat) (n : String)
    (f : Variable → Variable) :
    (s.setVarAt sid n f).scopes.length = s.scopes.length := by
  unfold St.setVarAt
  cases s.getScope sid with
  | none => rfl
  | some sc => exact setScope_scopes_length ..

/-- Current environment is unchanged by a variable write. -/
theorem setVarAt_currentEnv (s : St) (sid : Nat) (n : String)
    (f : Variable → Variable) :
    (s.setVarAt sid n f).currentEnv = s.currentEnv := by
  unfold St.setVarAt
  cases s.getScope sid with
  | none => rfl
  | some sc => rfl

/-- Lookup views of other names are unchanged by a variable write. -/
theorem lookView_setVarAt_ne (s : St) (sid : Nat) (x : String)
    (f : Variable → Variable) (n : String) (hn : n ≠ x) (sid2 : Nat) :
    lookView (s.setVarAt sid x f) sid2 n = lookView s sid2 n := by
  unfold St.setVarAt
  cases hg : s.getScope sid with
  | none => rfl
  | some sc =>
    unfold lookView
    by_cases hs : sid2 = sid
    · subst hs
      rw [getScope_setScope_eq, hg]
      show some (alookup (aupdate sc.vars x f) n, sc.parent) = _
      rw [alookup_aupdate_ne _ _ _ _ hn]
      rfl
    · rw [getScope_setScope_ne _ _ _ _ hs]

/-- Resolution of another name is unchanged by a variable write. -/
theorem resolve_setVarAt_ne (s : St) (sid : Nat) (x : String)
    (f : Variable → Variable) (n : String) (hn : n ≠ x) :
    (s.setVarAt sid x f).resolve n = s.resolve n := by
  unfold St.resolve
  rw [setVarAt_scopes_length, setVarAt_currentEnv]
  exact resolveFrom_congr s _ n (lookView_setVarAt_ne s sid x f n hn) _ _

/-- Reading back the written variable. -/
theorem varAt_setVarAt_eq (s : St) (sid : Nat) (n : String)
    (f : Variable → Variable) :
    (s.setVarAt sid n f).varAt sid n = (s.varAt sid n).map f := by
  unfold St.setVarAt St.varAt
  cases hg : s.getScope sid with
  | none => rw [hg]; rfl
  | some sc =>
    rw [getScope_setScope_eq, hg]
    show alookup (aupdate sc.vars n f) n = _
    rw [alookup_aupdate_eq]

/-- Reading another slot after a variable write. -/
theorem varAt_setVarAt_ne (s : St) (sid : Nat) (x : String)
    (f : Variable → Variable) (sid2 : Nat) (n : String)
    (h : n ≠ x ∨ sid2 ≠ sid) :
    (s.setVarAt sid x f).varAt sid2 n = s.varAt sid2 n := by
  unfold St.setVarAt
  cases hg : s.getScope sid with
  | none => rfl
  | some sc =>
    unfold St.varAt
    by_cases hs : sid2 = sid
    · subst hs
      rw [getScope_setScope_eq, hg]
      cases h with
      | inl hn => exact (alookup_aupdate_ne _ _ _ _ hn)
      | inr hsid => exact absurd rfl hsid
    · rw [getScope_setScope_ne _ _ _ _ hs]


/-! Claim C9 (corrected). -/

/-- C9 (amended): under lenient mode, every SP write that goes through the
`sp` property setter leaves the stored value at least 10, and `i_am_okay`
resets the backing field to 50; but `pray_for_chaos` and `reset` write the
backing field directly, bypassing the lenient clamp, so `pray for chaos`
leaves the stored value at exactly 0 and `reset w` at exactly `w`. -/
theorem lenient_floor_setter (t : SanityTracker) (h : t.lenient = true)
    (v : Int) :
    10 ≤ (t.setSp v).spv ∧ (t.iAmOkay).spv = 50 ∧ (t.prayForChaos).spv = 0
      ∧ ∀ w : Int, (t.reset w).spv = w := by
  refine ⟨?_, rfl, rfl, fun w => rfl⟩
  unfold SanityTracker.setSp SanityTracker.checkThresholds
  simp only [h]
  split_ifs <;> simp_all

/-- Witness for C9: a lenient tracker written to -100 through the setter is
floored at 10 while `pray_for_chaos` leaves 0. -/
theorem lenient_floor_setter_witness :
    10 ≤ (({ lenient := true } : SanityTracker).setSp (-100)).spv
      ∧ (({ lenient := true } : SanityTracker).iAmOkay).spv = 50
      ∧ (({ lenient := true } : SanityTracker).prayForChaos).spv = 0
      ∧ ∀ w : Int, (({ lenient := true } : SanityTracker).reset w).spv = w :=
  lenient_floor_setter { lenient := true } rfl (-100)

/-- C9 counterexample: under lenient mode, `pray for chaos` leaves the
stored SP at 0, below the claimed floor of 10, because it writes the
backing field directly instead of going through the clamping setter. -/
theorem lenient_pray_for_chaos_counterexample :
    (({ lenient := true } : SanityTracker).prayForChaos).spv = 0
      ∧ ¬ 10 ≤ (({ lenient := true } : SanityTracker).prayForChaos).spv :=
  ⟨rfl, by decide⟩

/-! Claim C8 (corrected). -/

/-- C8 (amended): a non-Elder whatever variable is mutated by its periodic
sweep check (`check_whatever_mutation`, invoked once per 50 executed
statements): each invocation bumps its private counter and only the 50th
mutates — a numeric value drifts by a tenth of itself up or down per the
random draw, and a non-empty text value has the character at the drawn
index replaced by a drawn lowercase letter.  Its own read accesses never
mutate it, and the schedule is independent of its access count. -/
theorem whatever_mutation_sweep_schedule (v : Variable) (rng : List Int)
    (hk : v.keyword = "whatever") (he : v.traits.contains .elder = false) :
    (∀ n : Nat, (v.recordAccess n).value = v.value) ∧
    (v.whateverCounter + 1 < 50 →
      (v.checkWhateverMutation rng).1.value = v.value ∧
      (v.checkWhateverMutation rng).1.whateverCounter = v.whateverCounter + 1) ∧
    (∀ q : Rat, v.whateverCounter = 49 → v.value = .num q →
      (v.checkWhateverMutation rng).1.value = .num (q - q / 10) ∨
      (v.checkWhateverMutation rng).1.value = .num (q + q / 10)) ∧
    (∀ w : String, v.whateverCounter = 49 → v.value = .word w → w.length > 0 →
      (v.checkWhateverMutation rng).1.value
        = .word ⟨w.data.take ((rng.headD 0).toNat % w.length) ++
            [Char.ofNat (97 + (rng.getD 1 0).toNat % 26)] ++
            w.data.drop ((rng.headD 0).toNat % w.length + 1)⟩) ∧
    (∀ k : Nat,
      (({ v with accessCount := k } : Variable).checkWhateverMutation rng).1.value
        = (v.checkWhateverMutation rng).1.value) := by
  refine ⟨?_, ?_, ?_, ?_, ?_⟩
  · intro n
    simp only [Variable.recordAccess, Variable.addTrait]
    split_ifs <;> rfl
  · intro hlt
    unfold Variable.checkWhateverMutation
    rw [hk]
    simp only [he]
    have : ¬ v.whateverCounter + 1 ≥ 50 := by omega
    simp [this]
  · intro q hc hv
    have key : v.checkWhateverMutation rng =
        ({ v with whateverCounter := 0,
                  value := .num (q + q * (1 : Rat) / 10 *
                    (if (rng.headD 0) % 2 = 0 then (-1 : Rat) else 1)) }, rng.drop 1) := by
      unfold Variable.checkWhateverMutation
      rw [hk]
      rw [if_neg (by simp)]
      rw [he]
      rw [if_neg (by simp)]
      show (if v.whateverCounter + 1 ≥ 50 then _ else _) = _
      rw [hc]
      rw [if_pos (by omega : (49 : Nat) + 1 ≥ 50)]
      rw [show ({ v with whateverCounter := 0 } : Variable).value = SVal.num q from hv]
    by_cases hd : (rng.headD 0) % 2 = 0
    · left
      rw [key]
      show SVal.num (q + q * (1 : Rat) / 10 *
        (if (rng.headD 0) % 2 = 0 then (-1 : Rat) else 1)) = SVal.num (q - q / 10)
      rw [if_pos hd]
      congr 1
      ring
    · right
      rw [key]
      show SVal.num (q + q * (1 : Rat) / 10 *
        (if (rng.headD 0) % 2 = 0 then (-1 : Rat) else 1)) = SVal.num (q + q / 10)
      rw [if_neg hd]
      congr 1
      ring
  · intro w hc hv hw
    have key : v.checkWhateverMutation rng =
        ({ v with whateverCounter := 0,
                  value := .word ⟨w.data.take ((rng.headD 0).toNat % w.length) ++
                    [Char.ofNat (97 + (rng.getD 1 0).toNat % 26)] ++
                    w.data.drop ((rng.headD 0).toNat % w.length + 1)⟩ }, rng.drop 2) := by
      unfold Variable.checkWhateverMutation
      rw [hk]
      rw [if_neg (by simp)]
      rw [he]
      rw [if_neg (by simp)]
      show (if v.whateverCounter + 1 ≥ 50 then _ else _) = _
      rw [hc]
      rw [if_pos (by omega : (49 : Nat) + 1 ≥ 50)]
      rw [show ({ v with whateverCounter := 0 } : Variable).value = SVal.word w from hv]
      dsimp only
      rw [if_pos hw]
    rw [key]
  · intro k
    simp only [Variable.checkWhateverMutation, hk, he, ne_eq, not_true_eq_false,
      Bool.false_eq_true, if_false]
    cases hval : v.value <;> dsimp only <;> first | rfl | (split_ifs <;> rfl)

/-- Witness for C8: the probe variable (whatever, counter 0) survives a
sweep check unchanged in value, and with counter 49 drifts by a tenth. -/
theorem whatever_mutation_sweep_schedule_witness :
    ((whateverProbeVar.recordAccess 3).value = whateverProbeVar.value)
      ∧ ((whateverProbeVar.checkWhateverMutation []).1.value = .num 100
          ∧ (whateverProbeVar.checkWhateverMutation []).1.whateverCounter = 1) := by
  have h := whatever_mutation_sweep_schedule whateverProbeVar [] rfl rfl
  exact ⟨h.1 3, h.2.1 (by decide)⟩

/-- C8 counterexample: 100 consecutive read accesses of a whatever variable
leave its value identical — no drift of ten percent up or down ever happens
on a 50th access, refuting the access-driven mutation schedule. -/
theorem whatever_access_counterexample :
    ((fun v : Variable => v.recordAccess 1)^[100] whateverProbeVar).value = .num 100
      ∧ (SVal.num 100 ≠ SVal.num 110) ∧ (SVal.num 100 ≠ SVal.num 90) := by
  exact ⟨recordAccess_iterate_value whateverProbeVar 100, by simp, by simp⟩

/-! Claim C3 (code bug). -/

set_option maxHeartbeats 4000000 in
/-- C3 (code bug): the epilogue does not run when the main body raises an
unhandled error — `execute_program` only reaches the epilogue block after
the body's statement loop finishes, so a crash in the body propagates
immediately and `cleanup` is never printed, even though the epilogue runs
(with its own errors discarded) after a clean body. -/
theorem epilogue_skipped_after_crash :
    (execProgram 64 progCrashEpilogue (initStSp 100)).1.output = ["[CRASH] boom"]
      ∧ (execProgram 64 progCrashEpilogue (initStSp 100)).2 = .err "boom" "" "Neutral"
      ∧ (execProgram 64 progCleanEpilogue (initStSp 100)).1.output = ["main", "cleanup"] :=
  ⟨rfl, rfl, rfl⟩

/-! Claim C4 (code bug). -/

set_option maxHeartbeats 4000000 in
/-- C4 (code bug): a `yolo` block swallows break signals — its handler
catches every exception class, so `enough` inside a yolo inside a
`pls 3` loop never reaches the loop: all three iterations run and print
`after`, with SP charged for three swallowed errors; by contrast a
try/cope block lets the same break signal propagate. -/
theorem yolo_swallows_break :
    (execProgram 64 progYoloBreak (initStSp 100)).1.output = ["after", "after", "after"]
      ∧ (execProgram 64 progYoloBreak (initStSp 100)).1.sp.spv = 85
      ∧ (dispatch 64 tryBreakStmt (initStSp 100)).2 = .brk :=
  ⟨rfl, rfl, rfl⟩

/-! Claim C1 (corrected). -/

/-- C1 (amended): reassigning a swear variable is fatal at both sites, but
only a direct assignment rejects before evaluating the right-hand side and
so leaves the stored value intact; a re-declaration evaluates the
right-hand side first, whose side effects (here the envies drift of `x`
toward `z`) can change the stored value before the error is raised. -/
theorem swear_reassign_blocks :
    ((dispatch 20 (.assign ["."] 2 "x" (.numLit 99)) stSwearEnvy).2
        = .err "Cannot reassign swear variable 'x'! Program crashed." "x" "Neutral")
      ∧ ((dispatch 20 (.assign ["."] 2 "x" (.numLit 99)) stSwearEnvy).1.valueOf "x"
        = some (.num 40))
      ∧ ((dispatch 20 (.varDecl ["."] 2 "maybe" "x" (some (.varAccess "x"))) stSwearEnvy).2
        = .err "Cannot reassign swear variable 'x'! Program crashed." "x" "Neutral")
      ∧ ((dispatch 20 (.varDecl ["."] 2 "maybe" "x"
            (some (.varAccess "x"))) stSwearEnvy).1.valueOf "x"
        = some (.num 41)) := by
  refine ⟨rfl, rfl, rfl, ?_⟩
  have h : (dispatch 20 (.varDecl ["."] 2 "maybe" "x"
        (some (.varAccess "x"))) stSwearEnvy).1.valueOf "x"
      = some (.num (40 + ((50 : Rat) - 40) * 1 / 10)) := by rfl
  rw [h]
  norm_num

/-- C1 counterexample: a re-declaration of the swear variable `x = 40`
(which envies `z = 50`) raises the fatal error only after evaluating the
right-hand side, so `x` ends at 41, not its original 40. -/
theorem swear_redecl_drift_counterexample :
    ((dispatch 20 (.varDecl ["."] 2 "maybe" "x"
          (some (.varAccess "x"))) stSwearEnvy).1.valueOf "x"
        = some (.num 41))
      ∧ SVal.num 41 ≠ SVal.num 40 ∧ stSwearEnvy.valueOf "x" = some (.num 40) := by
  refine ⟨?_, by simp, rfl⟩
  have h : (dispatch 20 (.varDecl ["."] 2 "maybe" "x"
        (some (.varAccess "x"))) stSwearEnvy).1.valueOf "x"
      = some (.num (40 + ((50 : Rat) - 40) * 1 / 10)) := by rfl
  rw [h]
  norm_num

/-! Claim C5 (corrected). -/

/-- C5 (amended): deleting a variable sends its value to the Afterlife
without unbinding it.  For a non-ghost variable the following seance serves
the Afterlife entry: the first retrieval returns the value held at deletion
— unless the variable died Afraid, in which case it yields Void.  A ghost
variable stays readable through its live binding, so a seance keeps
returning its stored value even after deletion and regardless of mood. -/
theorem seance_returns_value :
    (∀ (v : SVal) (m : Mood), m ≠ Mood.afraid →
      (evalSeance "x" (execDelete "x" (stVar v m)).1).2 = .ok v)
    ∧ (evalSeance "x" (execDelete "x" stGhostAfraid).1).2 = .ok (.num 42) := by
  refine ⟨?_, by rfl⟩
  intro v m hm
  have h : (evalSeance "x" (execDelete "x" (stVar v m)).1).2 = .ok v.copy := by
    cases m
    · rfl
    · rfl
    · rfl
    · rfl
    · exact absurd rfl hm
    · rfl
    · rfl
  rw [h, SVal.copy_eq]

/-- Witness for C5 at `x = 42` with neutral mood. -/
theorem seance_returns_value_witness :
    Mood.neutral ≠ Mood.afraid
      ∧ (evalSeance "x" (execDelete "x" (stVar (.num 42) Mood.neutral)).1).2
        = .ok (.num 42) :=
  ⟨by decide, seance_returns_value.1 (.num 42) Mood.neutral (by decide)⟩

/-- C5 counterexample: a variable that died Afraid never yields its value —
the first post-deletion seance already returns Void instead of 42. -/
theorem seance_afraid_counterexample :
    (evalSeance "x" (execDelete "x" stAfraidVar).1).2 = .ok SVal.void
      ∧ SVal.void ≠ SVal.num 42 ∧ stAfraidVar.valueOf "x" = some (.num 42) :=
  ⟨rfl, fun h => SVal.noConfusion h, rfl⟩

/-! Claim C6 (confirmed). -/

/-- C6: after `a mirrors b` (`a = 1`, `b = 2`), `a` is unchanged and the
overwrite is pending with the declaration-time value of `b`; after exactly
one further statement `a` holds that value (2); the overwrite is re-armed
each statement with the value `b` had at that statement's end, so after
`b = 99` the variable `a` still holds 2 and only the next statement writes
99 — always one statement behind `b`. -/
theorem mirrors_one_statement_lag :
    mirrorSt1.valueOf "a" = some (.num 1)
      ∧ mirrorSt1.mirrorPending = [("a", .num 2)]
      ∧ mirrorSt2.valueOf "a" = some (.num 2)
      ∧ mirrorSt3.valueOf "a" = some (.num 2)
      ∧ mirrorSt3.valueOf "b" = some (.num 99)
      ∧ mirrorSt3.mirrorPending = [("a", .num 99)]
      ∧ mirrorSt4.valueOf "a" = some (.num 99) :=
  ⟨rfl, rfl, rfl, rfl, rfl, rfl, rfl⟩

/-! Claim C10 (corrected). -/

/-- C10 (amended): an assignment to an assignable variable with zero trust
is silently rejected — no error, the statement returns the old value and
the stored value is unchanged — provided the evaluated right-hand side does
not collide with a hated variable; the hates check runs first and raises. -/
theorem trust_zero_silent_reject :
    ((dispatch 20 (.assign ["."] 2 "a" (.numLit 7)) stTrustZeroHates).2 = .ok (.num 1))
      ∧ ((dispatch 20 (.assign ["."] 2 "a" (.numLit 7)) stTrustZeroHates).1.valueOf "a"
        = some (.num 1)) :=
  ⟨rfl, rfl⟩

/-- C10 counterexample: assigning the hated variable's value (5) to the
zero-trust variable `a` raises a hates error instead of the claimed
error-free silent rejection — and the error message carries the evaluated
right-hand side, showing the expression was evaluated first. -/
theorem trust_zero_hates_counterexample :
    (dispatch 20 (.assign ["."] 2 "a" (.numLit 5)) stTrustZeroHates).2
      = .err "'a' hates 'b' — cannot hold the same value (5)" "" "Neutral" := rfl


/-! Claim C7 (confirmed). -/

/-- C7: a counted loop dispatches to `execPls`; a numeric count `q` (with no
enclosing conditional loop, so the quit probability is 0) enters the
iteration loop with exactly `(ratTrunc q).toNat` iterations and a start
index of 1 when SP ≥ 50 and 0 when SP < 50; with insanity mode off each
iteration binds the induction variable to the current index in a fresh
scope, runs the body, and recurses with the index incremented, until the
remaining count reaches 0.  For count 5 this yields exactly 5 iterations
binding 1,2,3,4,5 resp. 0,1,2,3,4. -/
theorem pls_counted_loop_start_index :
    (∀ (fuel : Nat) (terms : List String) (line : Nat) (count : Expr)
        (cn : Option String) (body : List Stmt) (s : St),
      dispatch (fuel + 1) (.plsLoop terms line count cn body) s
        = execPls fuel count cn body line s)
    ∧ (∀ (fuel : Nat) (q : Rat) (cn : Option String) (body : List Stmt)
        (line : Nat) (s : St), s.ughQuitProb = 0 →
      execPls (fuel + 2) (.numLit q) cn body line s
        = execPlsIter (fuel + 1) (ratTrunc q).toNat
            (if s.sp.spv < 50 then 0 else 1) cn body line s .void)
    ∧ (∀ (fuel : Nat) (i : Int) (cn : Option String) (body : List Stmt)
        (line : Nat) (s : St) (res : SVal),
      execPlsIter (fuel + 1) 0 i cn body line s res = (s, .ok res))
    ∧ (∀ (fuel rem : Nat) (i : Int) (cn : Option String) (body : List Stmt)
        (line : Nat) (s : St) (res : SVal), s.sp.insanityMode = false →
      execPlsIter (fuel + 1) (rem + 1) i cn body line s res =
        (let (fid, s) := s.pushScope s.currentEnv
         let oldEnv := s.currentEnv
         let s := { s with currentEnv := fid }
         let s :=
           match cn with
           | some c =>
             s.define c { name := c, value := .num (i : Rat), keyword := "sure"
                          declLine := line }
           | none => s
         let (s, last, sig) := execSeqV fuel body s res
         let s := { s with currentEnv := oldEnv }
         match sig with
         | none => execPlsIter fuel rem (i + 1) cn body line s last
         | some .brk => (s, .ok last)
         | some x => (s, x))) := by
  refine ⟨fun _ _ _ _ _ _ _ => rfl, ?_, fun _ _ _ _ _ _ _ => rfl, ?_⟩
  · intro fuel q cn body line s hq
    show execPlsStep (evals (fuel + 1)) (.numLit q) cn body line s = _
    rw [execPlsStep]
    rw [show (evals (fuel + 1)).evalExpr = evalExprStep (evals fuel) from rfl]
    dsimp only [evalExprStep]
    rw [hq]
    rfl
  · intro fuel rem i cn body line s res h
    show execPlsIterStep (evals fuel) (rem + 1) i cn body line s res = _
    rw [execPlsIterStep]
    rw [h]
    rfl

/-- Witness for C7: at count 5 the loop is entered with 5 iterations and
start index 1 at SP 100, resp. 0 at SP 40. -/
theorem pls_counted_loop_start_index_witness :
    ((initStSp 100).ughQuitProb = 0 ∧ (initStSp 100).sp.insanityMode = false
      ∧ (initStSp 40).ughQuitProb = 0)
    ∧ execPls 19 (.numLit 5) (some "i") [.printS ["."] 2 (.varAccess "i")] 1 (initStSp 100)
        = execPlsIter 18 5 1 (some "i") [.printS ["."] 2 (.varAccess "i")] 1
            (initStSp 100) .void
    ∧ execPls 19 (.numLit 5) (some "i") [.printS ["."] 2 (.varAccess "i")] 1 (initStSp 40)
        = execPlsIter 18 5 0 (some "i") [.printS ["."] 2 (.varAccess "i")] 1
            (initStSp 40) .void := by
  have h100 := pls_counted_loop_start_index.2.1 17 5 (some "i")
      [.printS ["."] 2 (.varAccess "i")] 1 (initStSp 100) rfl
  have h40 := pls_counted_loop_start_index.2.1 17 5 (some "i")
      [.printS ["."] 2 (.varAccess "i")] 1 (initStSp 40) rfl
  norm_num at h100 h40
  refine ⟨⟨rfl, rfl, rfl⟩, ?_, ?_⟩
  · rw [h100]
    rw [show ((ratTrunc 5).toNat) = 5 from rfl,
      show (if (initStSp 100).sp.spv < 50 then (0 : Int) else 1) = 1 from rfl]
  · rw [h40]
    rw [show ((ratTrunc 5).toNat) = 5 from rfl,
      show (if (initStSp 40).sp.spv < 50 then (0 : Int) else 1) = 0 from rfl]

/-! Claim C2 (unresolved): the did-function memoization machinery is
established by the standalone lemmas below — a cache hit returns the cached
value with no body side effects, and a memoized function called twice with
the same argument prints once — but the claim's concrete fib(10) = 55
instance is not settled by them, so the claim as a whole stays open. -/

set_option maxHeartbeats 6000000 in
/-- A did-function call whose argument key is already in the memo cache
returns the cached value, leaves the output untouched (no body side
effects) and does not change the memo cache, provided there is no pinned
return and the call is not the 25th (which would print a refactor hint). -/
theorem didMemoHit (fuel : Nat) (name : String) (args : List SVal) (fd : FuncData)
    (env : Nat) (s : St) (cache : List (List String × SVal))
    (entry : List String × SVal)
    (hk : fd.keyword = "did")
    (hp : alookup s.cachedReturns name = none)
    (hm : alookup s.memoCaches name = some cache)
    (hf : cache.find? (fun e => e.1 = args.map svalStr) = some entry)
    (hc : (alookup s.callCounts name).getD 0 + 1 ≠ 25) :
    (callFunction (fuel + 1) name args fd env s).2 = .ok entry.2
      ∧ (callFunction (fuel + 1) name args fd env s).1.output = s.output
      ∧ (callFunction (fuel + 1) name args fd env s).1.memoCaches = s.memoCaches := by
  suffices h : ∃ s', callFunctionStep (evals fuel) name args fd env s = (s', .ok entry.2)
      ∧ s'.output = s.output ∧ s'.memoCaches = s.memoCaches by
    obtain ⟨s', heq, ho, hmC⟩ := h
    rw [show callFunction (fuel + 1) name args fd env s
        = callFunctionStep (evals fuel) name args fd env s from rfl, heq]
    exact ⟨rfl, ho, hmC⟩
  rw [callFunctionStep]
  rw [hk]
  simp only [String.reduceEq, decide_False, decide_True, Bool.false_and, Bool.false_eq_true,
    reduceIte, hp]
  rw [if_neg hc]
  by_cases h1 : (alookup s.callCounts name).getD 0 + 1 = 1
  · rw [if_pos h1]
    dsimp only [St.addGraphEdge]
    simp only [hm, Option.isNone_some, Bool.false_eq_true, reduceIte, Option.getD_some]
    simp only [hm, Option.getD_some, hf]
    exact ⟨_, rfl, rfl, rfl⟩
  · rw [if_neg h1]
    by_cases h2 : (alookup s.callCounts name).getD 0 + 1 ≥ 10
    · rw [if_pos h2]
      dsimp only [St.addGraphEdge]
      simp only [hm, Option.isNone_some, Bool.false_eq_true, reduceIte, Option.getD_some]
      simp only [hm, Option.getD_some, hf]
      exact ⟨_, rfl, rfl, rfl⟩
    · rw [if_neg h2]
      dsimp only [St.addGraphEdge]
      simp only [hm, Option.isNone_some, Bool.false_eq_true, reduceIte, Option.getD_some]
      simp only [hm, Option.getD_some, hf]
      exact ⟨_, rfl, rfl, rfl⟩

/-- Did-functions memoize: a call whose rendered argument vector is
already cached returns the cached result with no new output and an
unchanged cache (the body is not re-executed), and concretely a memoized
function with a print side effect called twice with the same argument
prints once and returns the cached 7 on the second call. -/
theorem did_memoization :
    (∀ (fuel : Nat) (name : String) (args : List SVal) (fd : FuncData)
        (env : Nat) (s : St) (cache : List (List String × SVal))
        (entry : List String × SVal),
      fd.keyword = "did" → alookup s.cachedReturns name = none →
      alookup s.memoCaches name = some cache →
      cache.find? (fun e => e.1 = args.map svalStr) = some entry →
      (alookup s.callCounts name).getD 0 + 1 ≠ 25 →
      (callFunction (fuel + 1) name args fd env s).2 = .ok entry.2
        ∧ (callFunction (fuel + 1) name args fd env s).1.output = s.output
        ∧ (callFunction (fuel + 1) name args fd env s).1.memoCaches = s.memoCaches)
    ∧ (execProgram 24 progMemoTwice (initStSp 100)).1.output = ["hi"]
    ∧ (execProgram 24 progMemoTwice (initStSp 100)).2 = .ok (.num 7) := by
  refine ⟨?_, by rfl, by rfl⟩
  intro fuel name args fd env s cache entry hk hp hm hf hc
  exact didMemoHit fuel name args fd env s cache entry hk hp hm hf hc

/-- The general memo-hit clause exercised at a one-entry cache. -/
theorem did_memoization_witness :
    (({ keyword := "did", fname := "g", params := ["x"], body := [], line := 1
        : FuncData }).keyword = "did"
      ∧ alookup ({ memoCaches := [("g", [(["1"], SVal.num 7)])] : St }).cachedReturns "g"
          = none
      ∧ alookup ({ memoCaches := [("g", [(["1"], SVal.num 7)])] : St }).memoCaches "g"
          = some [(["1"], SVal.num 7)])
    ∧ (callFunction 4 "g" [.num 1]
        { keyword := "did", fname := "g", params := ["x"], body := [], line := 1 } 0
        { memoCaches := [("g", [(["1"], SVal.num 7)])] }).2 = .ok (.num 7) := by
  refine ⟨⟨rfl, rfl, rfl⟩, ?_⟩
  exact (did_memoization.1 3 "g" [.num 1]
    { keyword := "did", fname := "g", params := ["x"], body := [], line := 1 } 0
    { memoCaches := [("g", [(["1"], SVal.num 7)])] } [(["1"], SVal.num 7)]
    (["1"], SVal.num 7) rfl rfl rfl (by rfl) (by decide)).1

end Sanity
